import Mathlib

/-!
Verification of the option-validation and job-descriptor assembly core of the
sharp image-transcoding pipeline configurator (src/lib/output.js and
src/lib/input.js), as a shallow embedding in Lean 4.

Modelling conventions:
* JavaScript numbers are modelled as exact rationals.  All arithmetic the
  embedded code performs on option values is small-integer or fixed-literal
  arithmetic for which the rational model agrees with IEEE doubles at every
  input the code accepts.
* `undefined` and `null` option values are both modelled as `Option.none`
  (the predicate library treats them identically via `is.defined`).
* Exceptions mutate nothing retroactively: JavaScript `throw` aborts the rest
  of a resolver but leaves every assignment already made to `this.options`
  in place.  A resolver is therefore embedded as a function returning the
  final state together with an optional error, and sequencing (`andThen`)
  short-circuits on error while keeping the state reached so far.
* The predicate library `lib/is.js` is required by both embedded files but is
  not part of the sources under verification; the spec treats it as a
  primitive utility, and its predicates are modelled from the spec below.
-/

namespace Sharp

/-- Modelled from the spec: a loosely-typed JavaScript option value, as seen by
the option predicates (number, boolean, string, or an array of numbers, the
one array-valued option the resolvers accept; `undefined`/`null` are
represented by `Option.none` around this type). -/
inductive JSVal where
  | num (q : ℚ)
  | bool (b : Bool)
  | str (s : String)
  | numArr (l : List ℚ)
deriving DecidableEq, Repr

/-- Modelled from the spec: `is.defined` from the option-predicate library,
true when the value is neither undefined nor null. -/
def isDefined (v : Option JSVal) : Bool := v.isSome

/-- Modelled from the spec: `is.bool` from the option-predicate library. -/
def isBool : Option JSVal → Bool
  | some (JSVal.bool _) => true
  | _ => false

/-- Modelled from the spec: `is.string` from the option-predicate library. -/
def isString : Option JSVal → Bool
  | some (JSVal.str _) => true
  | _ => false

/-- Modelled from the spec: `is.number` from the option-predicate library. -/
def isNumber : Option JSVal → Bool
  | some (JSVal.num _) => true
  | _ => false

/-- Modelled from the spec: the combination `is.integer v` used throughout the
resolvers (the value is a number with no fractional part). -/
def isInteger : Option JSVal → Bool
  | some (JSVal.num q) => q.den == 1
  | _ => false

/-- Modelled from the spec: `is.integer v && is.inRange v lo hi`, the pervasive
validation pattern for integer options. -/
def intInRange (v : Option JSVal) (lo hi : ℚ) : Bool :=
  match v with
  | some (JSVal.num q) => q.den == 1 && decide (lo ≤ q) && decide (q ≤ hi)
  | _ => false

/-- Modelled from the spec: `is.number v && is.inRange v lo hi`, the pervasive
validation pattern for fractional options. -/
def numInRange (v : Option JSVal) (lo hi : ℚ) : Bool :=
  match v with
  | some (JSVal.num q) => decide (lo ≤ q) && decide (q ≤ hi)
  | _ => false

/-- Modelled from the spec: membership of a string value in a fixed list of
allowed strings (`is.string v && is.inArray v [...]`). -/
def strInArray (v : Option JSVal) (allowed : List String) : Bool :=
  match v with
  | some (JSVal.str s) => allowed.contains s
  | _ => false

/-- Numeric payload of a value known to be a number (0 otherwise; only applied
after a numeric check has succeeded). -/
def getNum : Option JSVal → ℚ
  | some (JSVal.num q) => q
  | _ => 0

/-- String payload of a value known to be a string (empty otherwise; only
applied after a string check has succeeded). -/
def getStr : Option JSVal → String
  | some (JSVal.str s) => s
  | _ => ""

/-- JavaScript truthiness of a possibly-absent value (0, empty string, false,
undefined and null are falsy). -/
def truthy : Option JSVal → Bool
  | some (JSVal.num q) => q != 0
  | some (JSVal.bool b) => b
  | some (JSVal.str s) => s != ""
  | some (JSVal.numArr _) => true
  | none => false

/-- The JavaScript `a || b` alias-resolution idiom used for the
British/American spelling pairs (first operand when truthy, else second). -/
def jsOr (a b : Option JSVal) : Option JSVal := if truthy a then a else b

/-- Error taxonomy of the configurator: uniformly-shaped invalid-parameter
errors (field name, expected-constraint description, received value) and
plain-message structural errors. -/
inductive SharpError where
  | invalidParameter (name expected : String) (received : Option JSVal)
  | message (msg : String)
deriving DecidableEq, Repr

/-- Result of running an option-resolver step over a mutable record of type s:
the record as mutated so far, together with the first thrown error if any. -/
abbrev ERes (σ : Type) : Type := σ × Option SharpError

/-- Normal completion of a step. -/
def ok {σ : Type} (s : σ) : ERes σ := (s, none)

/-- A thrown error: the record keeps every mutation made before the throw. -/
def raise {σ : Type} (s : σ) (e : SharpError) : ERes σ := (s, some e)

/-- Sequencing of resolver steps: a throw aborts the remainder of the resolver
while preserving the state reached so far. -/
def andThen {σ : Type} (r : ERes σ) (f : σ → ERes σ) : ERes σ :=
  match r with
  | (s, none) => f s
  | (s, some e) => (s, some e)

/-- State of the first component of an `ERes`. -/
def st {σ : Type} (r : ERes σ) : σ := r.1

/-- Error component of an `ERes`. -/
def err {σ : Type} (r : ERes σ) : Option SharpError := r.2

/-- Fuel-driven floor of the base-2 logarithm of a natural number (0 for 0 and
1), written with explicit fuel so that it reduces by kernel computation. -/
def floorLog2Aux : Nat → Nat → Nat
  | 0, _ => 0
  | fuel + 1, n => if n ≤ 1 then 0 else floorLog2Aux fuel (n / 2) + 1

/-- Floor of the base-2 logarithm of a natural number. -/
def floorLog2 (n : Nat) : Nat := floorLog2Aux n n

/-- Model of the JavaScript composition `Math.ceil(Math.log2 n)` on positive
integers.  For every integer 2 ≤ n ≤ 2^32 the double-precision computation is
exact enough that its ceiling equals the mathematical ceiling, which this
function computes. -/
def mathCeilLog2 (n : Nat) : Nat := if n ≤ 1 then 0 else floorLog2 (n - 1) + 1

/-- Model of JavaScript `Math.clz32` on the natural numbers below 2^32: count
of leading zero bits of the 32-bit representation. -/
def mathClz32 (m : Nat) : Nat := if m = 0 then 32 else 32 - (floorLog2 m + 1)

/-- Line 36 of src/lib/output.js: the colour-count-to-bit-depth conversion
used by the png and gif resolvers,
`(colours) => 1 << 31 - Math.clz32(Math.ceil(Math.log2(colours)))`. -/
def bitdepthFromColourCount (colours : Nat) : Nat :=
  1 <<< (31 - mathClz32 (mathCeilLog2 colours))

/-- The bit-depth law claimed by the spec for the colour-count conversion,
`2 ^ ceil(log2 colours)`, written from the words of the spec for comparison
with the function the source implements. -/
def specBitdepthFromColourCount (colours : Nat) : Nat := 2 ^ mathCeilLog2 colours

/-- The Job Options record (the shared mutable record written by every output
and metadata resolver).  Only the field groups exercised by the embedded
resolvers are included; defaults are modelled from the spec, since the
constructor that installs them is outside the two files under verification. -/
structure SharpOptions where
  formatOut : String := "input"
  fileOut : String := ""
  jpegQuality : ℚ := 80
  jpegProgressive : Bool := false
  jpegChromaSubsampling : String := "4:2:0"
  jpegOptimiseCoding : Bool := true
  jpegTrellisQuantisation : Bool := false
  jpegOvershootDeringing : Bool := false
  jpegOptimiseScans : Bool := false
  jpegQuantisationTable : ℚ := 0
  pngProgressive : Bool := false
  pngCompressionLevel : ℚ := 6
  pngAdaptiveFiltering : Bool := false
  pngPalette : Bool := false
  pngQuality : ℚ := 100
  pngEffort : ℚ := 7
  pngBitdepth : Nat := 8
  pngDither : ℚ := 1
  webpQuality : ℚ := 80
  webpAlphaQuality : ℚ := 100
  webpLossless : Bool := false
  webpNearLossless : Bool := false
  webpSmartSubsample : Bool := false
  webpSmartDeblock : Bool := false
  webpPreset : String := "default"
  webpEffort : ℚ := 4
  webpMinSize : Bool := false
  webpMixed : Bool := false
  gifReuse : Bool := true
  gifProgressive : Bool := false
  gifBitdepth : Nat := 8
  gifEffort : ℚ := 7
  gifDither : ℚ := 1
  gifInterFrameMaxError : ℚ := 0
  gifInterPaletteMaxError : ℚ := 3
  gifKeepDuplicateFrames : Bool := false
  jxlDistance : ℚ := 1
  jxlDecodingTier : ℚ := 0
  jxlEffort : ℚ := 7
  jxlLossless : Bool := false
  rawDepth : String := ""
  loop : ℚ := 0
  delay : List ℚ := []
  tileSize : ℚ := 256
  tileOverlap : ℚ := 0
  tileContainer : String := "fs"
  tileLayout : String := "dz"
  tileAngle : ℚ := 0
  tileBackground : Option JSVal := none
  tileDepth : String := ""
  tileSkipBlanks : ℚ := -1
  tileCentre : Bool := false
  tileFormat : String := "input"
  tileId : String := "https://example.com/iiif"
  tileBasename : String := ""
  keepMetadata : Nat := 0
  withExif : List (String × String) := []
  withExifMerge : Bool := true
  withIccProfile : String := ""
  withXmp : String := ""
  timeoutSeconds : ℚ := 0
deriving DecidableEq

/-- Modelled from the spec: the freshly constructed Job Options record of a new
pipeline instance (format selection at the sentinel value, empty metadata
retention mask). -/
def initOptions : SharpOptions := {}

/-- Resolver steps mutate the shared Job Options record. -/
abbrev RRes : Type := ERes SharpOptions

/-- Lines 1492-1498 of src/lib/output.js, `_setBooleanOption`: write a boolean
option value through a field updater, raising the uniform invalid-parameter
error on a non-boolean value.  The JavaScript writes through a string key into
the options record; the embedding passes the corresponding field updater. -/
def setBooleanOption (s : SharpOptions) (key : String)
    (upd : Bool → SharpOptions → SharpOptions) (val : Option JSVal) : RRes :=
  match val with
  | some (JSVal.bool b) => ok (upd b s)
  | _ => raise s (SharpError.invalidParameter key "boolean" val)

/-- Lines 1478-1483 of src/lib/output.js, `_updateFormatOut`: record the codec
as the selected output format unless the options argument carries
`force: false`.  The force field of the resolver options object is passed
(none when the resolver was called without an options object). -/
def updateFormatOut (formatOut : String) (force : Option JSVal)
    (s : SharpOptions) : RRes :=
  if !(force == some (JSVal.bool false)) then ok { s with formatOut := formatOut }
  else ok s

/-- Field of a possibly-absent resolver options object, as read for example by
`_updateFormatOut` (`is.object(options) && options.force === false`) and by
`trySetAnimationOptions` (absent when no options object was given). -/
def optField {α : Type} (field : α → Option JSVal) : Option α → Option JSVal
  | some o => field o
  | none => none

/-- Recognised keys of the jpeg resolver options object
(src/lib/output.js lines 497-557). -/
structure JpegOpts where
  quality : Option JSVal := none
  progressive : Option JSVal := none
  chromaSubsampling : Option JSVal := none
  optimizeCoding : Option JSVal := none
  optimiseCoding : Option JSVal := none
  mozjpeg : Option JSVal := none
  trellisQuantization : Option JSVal := none
  trellisQuantisation : Option JSVal := none
  overshootDeringing : Option JSVal := none
  optimizeScans : Option JSVal := none
  optimiseScans : Option JSVal := none
  quantizationTable : Option JSVal := none
  quantisationTable : Option JSVal := none
  force : Option JSVal := none
deriving DecidableEq

/-- Lines 499-505 of output.js: jpeg quality validation. -/
def jpegQualityStep (o : JpegOpts) (s : SharpOptions) : RRes :=
  if isDefined o.quality then
    if intInRange o.quality 1 100 then ok { s with jpegQuality := getNum o.quality }
    else raise s (SharpError.invalidParameter "quality" "integer between 1 and 100" o.quality)
  else ok s

/-- Lines 506-508 of output.js: jpeg progressive flag. -/
def jpegProgressiveStep (o : JpegOpts) (s : SharpOptions) : RRes :=
  if isDefined o.progressive then
    setBooleanOption s "jpegProgressive" (fun b t => { t with jpegProgressive := b }) o.progressive
  else ok s

/-- Lines 509-515 of output.js: jpeg chroma subsampling validation. -/
def jpegChromaStep (o : JpegOpts) (s : SharpOptions) : RRes :=
  if isDefined o.chromaSubsampling then
    if strInArray o.chromaSubsampling ["4:2:0", "4:4:4"] then
      ok { s with jpegChromaSubsampling := getStr o.chromaSubsampling }
    else raise s (SharpError.invalidParameter "chromaSubsampling" "one of: 4:2:0, 4:4:4" o.chromaSubsampling)
  else ok s

/-- Lines 516-519 of output.js: optimise-coding spelling alias resolution and
boolean write. -/
def jpegOptimiseCodingStep (o : JpegOpts) (s : SharpOptions) : RRes :=
  let optimiseCoding := if isBool o.optimizeCoding then o.optimizeCoding else o.optimiseCoding
  if isDefined optimiseCoding then
    setBooleanOption s "jpegOptimiseCoding" (fun b t => { t with jpegOptimiseCoding := b }) optimiseCoding
  else ok s

/-- Lines 520-532 of output.js: the mozjpeg preset bundle. -/
def jpegMozjpegStep (o : JpegOpts) (s : SharpOptions) : RRes :=
  if isDefined o.mozjpeg then
    if isBool o.mozjpeg then
      if o.mozjpeg == some (JSVal.bool true) then
        ok { s with jpegTrellisQuantisation := true, jpegOvershootDeringing := true,
                    jpegOptimiseScans := true, jpegProgressive := true,
                    jpegQuantisationTable := 3 }
      else ok s
    else raise s (SharpError.invalidParameter "mozjpeg" "boolean" o.mozjpeg)
  else ok s

/-- Lines 533-536 of output.js: trellis-quantisation spelling alias and
boolean write. -/
def jpegTrellisStep (o : JpegOpts) (s : SharpOptions) : RRes :=
  let trellisQuantisation := if isBool o.trellisQuantization then o.trellisQuantization else o.trellisQuantisation
  if isDefined trellisQuantisation then
    setBooleanOption s "jpegTrellisQuantisation" (fun b t => { t with jpegTrellisQuantisation := b }) trellisQuantisation
  else ok s

/-- Lines 537-539 of output.js: overshoot-deringing boolean write. -/
def jpegOvershootStep (o : JpegOpts) (s : SharpOptions) : RRes :=
  if isDefined o.overshootDeringing then
    setBooleanOption s "jpegOvershootDeringing" (fun b t => { t with jpegOvershootDeringing := b }) o.overshootDeringing
  else ok s

/-- Lines 540-546 of output.js: optimise-scans spelling alias, boolean write,
and the implied progressive mode when the value is truthy. -/
def jpegOptimiseScansStep (o : JpegOpts) (s : SharpOptions) : RRes :=
  let optimiseScans := if isBool o.optimizeScans then o.optimizeScans else o.optimiseScans
  if isDefined optimiseScans then
    andThen (setBooleanOption s "jpegOptimiseScans" (fun b t => { t with jpegOptimiseScans := b }) optimiseScans)
      fun t => if truthy optimiseScans then ok { t with jpegProgressive := true } else ok t
  else ok s

/-- Lines 547-554 of output.js: quantisation-table spelling alias (picked by
`is.number`) and range validation. -/
def jpegQuantisationStep (o : JpegOpts) (s : SharpOptions) : RRes :=
  let quantisationTable := if isNumber o.quantizationTable then o.quantizationTable else o.quantisationTable
  if isDefined quantisationTable then
    if intInRange quantisationTable 0 8 then ok { s with jpegQuantisationTable := getNum quantisationTable }
    else raise s (SharpError.invalidParameter "quantisationTable" "integer between 0 and 8" quantisationTable)
  else ok s

/-- The option-validation body of the jpeg resolver (lines 498-555). -/
def jpegBody (o : JpegOpts) (s : SharpOptions) : RRes :=
  andThen (jpegQualityStep o s) fun s =>
  andThen (jpegProgressiveStep o s) fun s =>
  andThen (jpegChromaStep o s) fun s =>
  andThen (jpegOptimiseCodingStep o s) fun s =>
  andThen (jpegMozjpegStep o s) fun s =>
  andThen (jpegTrellisStep o s) fun s =>
  andThen (jpegOvershootStep o s) fun s =>
  andThen (jpegOptimiseScansStep o s) fun s =>
  jpegQuantisationStep o s

/-- Lines 497-557 of output.js: the jpeg resolver. -/
def jpeg (options : Option JpegOpts) (s : SharpOptions) : RRes :=
  andThen
    (match options with
     | none => ok s
     | some o => jpegBody o s)
    (updateFormatOut "jpeg" (optField JpegOpts.force options))

/-- Recognised keys of the png resolver options object
(src/lib/output.js lines 603-656). -/
structure PngOpts where
  progressive : Option JSVal := none
  compressionLevel : Option JSVal := none
  adaptiveFiltering : Option JSVal := none
  palette : Option JSVal := none
  quality : Option JSVal := none
  effort : Option JSVal := none
  colours : Option JSVal := none
  colors : Option JSVal := none
  dither : Option JSVal := none
  force : Option JSVal := none
deriving DecidableEq

/-- Lines 605-607 of output.js: png progressive flag. -/
def pngProgressiveStep (o : PngOpts) (s : SharpOptions) : RRes :=
  if isDefined o.progressive then
    setBooleanOption s "pngProgressive" (fun b t => { t with pngProgressive := b }) o.progressive
  else ok s

/-- Lines 608-614 of output.js: png compression level validation. -/
def pngCompressionLevelStep (o : PngOpts) (s : SharpOptions) : RRes :=
  if isDefined o.compressionLevel then
    if intInRange o.compressionLevel 0 9 then ok { s with pngCompressionLevel := getNum o.compressionLevel }
    else raise s (SharpError.invalidParameter "compressionLevel" "integer between 0 and 9" o.compressionLevel)
  else ok s

/-- Lines 615-617 of output.js: png adaptive filtering flag. -/
def pngAdaptiveFilteringStep (o : PngOpts) (s : SharpOptions) : RRes :=
  if isDefined o.adaptiveFiltering then
    setBooleanOption s "pngAdaptiveFiltering" (fun b t => { t with pngAdaptiveFiltering := b }) o.adaptiveFiltering
  else ok s

/-- Lines 618-625 of output.js: png colour-count spelling alias, validation,
and conversion to a stored bit-depth via `bitdepthFromColourCount`. -/
def pngColoursStep (o : PngOpts) (s : SharpOptions) : RRes :=
  let colours := jsOr o.colours o.colors
  if isDefined colours then
    if intInRange colours 2 256 then
      ok { s with pngBitdepth := bitdepthFromColourCount (getNum colours).num.toNat }
    else raise s (SharpError.invalidParameter "colours" "integer between 2 and 256" colours)
  else ok s

/-- Lines 626-630 of output.js: explicit palette flag, or the implicit
palette-mode trigger when any of quality, effort, colours, colors or dither
is defined. -/
def pngPaletteStep (o : PngOpts) (s : SharpOptions) : RRes :=
  if isDefined o.palette then
    setBooleanOption s "pngPalette" (fun b t => { t with pngPalette := b }) o.palette
  else if [o.quality, o.effort, o.colours, o.colors, o.dither].any isDefined then
    setBooleanOption s "pngPalette" (fun b t => { t with pngPalette := b }) (some (JSVal.bool true))
  else ok s

/-- Lines 631-653 of output.js: the palette-only group (quality, effort,
dither), validated only when palette mode is on in the Job Options record. -/
def pngPaletteGroupStep (o : PngOpts) (s : SharpOptions) : RRes :=
  if s.pngPalette then
    andThen
      (if isDefined o.quality then
        if intInRange o.quality 0 100 then ok { s with pngQuality := getNum o.quality }
        else raise s (SharpError.invalidParameter "quality" "integer between 0 and 100" o.quality)
       else ok s)
      fun s =>
        andThen
          (if isDefined o.effort then
            if intInRange o.effort 1 10 then ok { s with pngEffort := getNum o.effort }
            else raise s (SharpError.invalidParameter "effort" "integer between 1 and 10" o.effort)
           else ok s)
          fun s =>
            if isDefined o.dither then
              if numInRange o.dither 0 1 then ok { s with pngDither := getNum o.dither }
              else raise s (SharpError.invalidParameter "dither" "number between 0.0 and 1.0" o.dither)
            else ok s
  else ok s

/-- The option-validation body of the png resolver (lines 604-654). -/
def pngBody (o : PngOpts) (s : SharpOptions) : RRes :=
  andThen (pngProgressiveStep o s) fun s =>
  andThen (pngCompressionLevelStep o s) fun s =>
  andThen (pngAdaptiveFilteringStep o s) fun s =>
  andThen (pngColoursStep o s) fun s =>
  andThen (pngPaletteStep o s) fun s =>
  pngPaletteGroupStep o s

/-- Lines 603-656 of output.js: the png resolver. -/
def png (options : Option PngOpts) (s : SharpOptions) : RRes :=
  andThen
    (match options with
     | none => ok s
     | some o => pngBody o s)
    (updateFormatOut "png" (optField PngOpts.force options))

/-- Lines 936-957 of output.js, `trySetAnimationOptions`: the shared loop
validator reused by every animatable codec. -/
def animationLoopStep (loop : Option JSVal) (s : SharpOptions) : RRes :=
  if isDefined loop then
    if intInRange loop 0 65535 then ok { s with loop := getNum loop }
    else raise s (SharpError.invalidParameter "loop" "integer between 0 and 65535" loop)
  else ok s

/-- Lines 944-956 of output.js: the shared delay validator (a single integer
or an array of integers, each between 0 and 65535). -/
def animationDelayStep (delay : Option JSVal) (s : SharpOptions) : RRes :=
  if isDefined delay then
    if intInRange delay 0 65535 then ok { s with delay := [getNum delay] }
    else
      match delay with
      | some (JSVal.numArr l) =>
        if l.all (fun v => v.den == 1 && decide (0 ≤ v) && decide (v ≤ 65535)) then
          ok { s with delay := l }
        else raise s (SharpError.invalidParameter "delay" "integer or an array of integers between 0 and 65535" delay)
      | _ => raise s (SharpError.invalidParameter "delay" "integer or an array of integers between 0 and 65535" delay)
  else ok s

/-- Lines 936-957 of output.js: `trySetAnimationOptions(source, target)`,
receiving the loop and delay keys of the resolver options object (absent when
the resolver was called without options). -/
def trySetAnimationOptions (loop delay : Option JSVal) (s : SharpOptions) : RRes :=
  andThen (animationLoopStep loop s) fun s => animationDelayStep delay s

/-- Recognised keys of the gif resolver options object
(src/lib/output.js lines 792-845). -/
structure GifOpts where
  reuse : Option JSVal := none
  progressive : Option JSVal := none
  colours : Option JSVal := none
  colors : Option JSVal := none
  effort : Option JSVal := none
  dither : Option JSVal := none
  interFrameMaxError : Option JSVal := none
  interPaletteMaxError : Option JSVal := none
  keepDuplicateFrames : Option JSVal := none
  loop : Option JSVal := none
  delay : Option JSVal := none
  force : Option JSVal := none
deriving DecidableEq

/-- Lines 794-796 of output.js: gif palette reuse flag. -/
def gifReuseStep (o : GifOpts) (s : SharpOptions) : RRes :=
  if isDefined o.reuse then
    setBooleanOption s "gifReuse" (fun b t => { t with gifReuse := b }) o.reuse
  else ok s

/-- Lines 797-799 of output.js: gif progressive flag. -/
def gifProgressiveStep (o : GifOpts) (s : SharpOptions) : RRes :=
  if isDefined o.progressive then
    setBooleanOption s "gifProgressive" (fun b t => { t with gifProgressive := b }) o.progressive
  else ok s

/-- Lines 800-807 of output.js: gif colour-count spelling alias, validation,
and conversion to a stored bit-depth via `bitdepthFromColourCount`. -/
def gifColoursStep (o : GifOpts) (s : SharpOptions) : RRes :=
  let colours := jsOr o.colours o.colors
  if isDefined colours then
    if intInRange colours 2 256 then
      ok { s with gifBitdepth := bitdepthFromColourCount (getNum colours).num.toNat }
    else raise s (SharpError.invalidParameter "colours" "integer between 2 and 256" colours)
  else ok s

/-- Lines 808-814 of output.js: gif effort validation (a number check). -/
def gifEffortStep (o : GifOpts) (s : SharpOptions) : RRes :=
  if isDefined o.effort then
    if numInRange o.effort 1 10 then ok { s with gifEffort := getNum o.effort }
    else raise s (SharpError.invalidParameter "effort" "integer between 1 and 10" o.effort)
  else ok s

/-- Lines 815-821 of output.js: gif dither validation. -/
def gifDitherStep (o : GifOpts) (s : SharpOptions) : RRes :=
  if isDefined o.dither then
    if numInRange o.dither 0 1 then ok { s with gifDither := getNum o.dither }
    else raise s (SharpError.invalidParameter "dither" "number between 0.0 and 1.0" o.dither)
  else ok s

/-- Lines 822-828 of output.js: gif inter-frame error validation. -/
def gifInterFrameStep (o : GifOpts) (s : SharpOptions) : RRes :=
  if isDefined o.interFrameMaxError then
    if numInRange o.interFrameMaxError 0 32 then ok { s with gifInterFrameMaxError := getNum o.interFrameMaxError }
    else raise s (SharpError.invalidParameter "interFrameMaxError" "number between 0.0 and 32.0" o.interFrameMaxError)
  else ok s

/-- Lines 829-835 of output.js: gif inter-palette error validation. -/
def gifInterPaletteStep (o : GifOpts) (s : SharpOptions) : RRes :=
  if isDefined o.interPaletteMaxError then
    if numInRange o.interPaletteMaxError 0 256 then ok { s with gifInterPaletteMaxError := getNum o.interPaletteMaxError }
    else raise s (SharpError.invalidParameter "interPaletteMaxError" "number between 0.0 and 256.0" o.interPaletteMaxError)
  else ok s

/-- Lines 836-842 of output.js: gif keep-duplicate-frames flag. -/
def gifKeepDuplicateFramesStep (o : GifOpts) (s : SharpOptions) : RRes :=
  if isDefined o.keepDuplicateFrames then
    if isBool o.keepDuplicateFrames then
      setBooleanOption s "gifKeepDuplicateFrames" (fun b t => { t with gifKeepDuplicateFrames := b }) o.keepDuplicateFrames
    else raise s (SharpError.invalidParameter "keepDuplicateFrames" "boolean" o.keepDuplicateFrames)
  else ok s

/-- The option-validation body of the gif resolver (lines 793-843). -/
def gifBody (o : GifOpts) (s : SharpOptions) : RRes :=
  andThen (gifReuseStep o s) fun s =>
  andThen (gifProgressiveStep o s) fun s =>
  andThen (gifColoursStep o s) fun s =>
  andThen (gifEffortStep o s) fun s =>
  andThen (gifDitherStep o s) fun s =>
  andThen (gifInterFrameStep o s) fun s =>
  andThen (gifInterPaletteStep o s) fun s =>
  gifKeepDuplicateFramesStep o s

/-- Lines 792-845 of output.js: the gif resolver. -/
def gif (options : Option GifOpts) (s : SharpOptions) : RRes :=
  andThen
    (andThen
      (match options with
       | none => ok s
       | some o => gifBody o s)
      fun s =>
        trySetAnimationOptions (optField GifOpts.loop options) (optField GifOpts.delay options) s)
    (updateFormatOut "gif" (optField GifOpts.force options))

/-- Recognised keys of the webp resolver options object
(src/lib/output.js lines 690-741). -/
structure WebpOpts where
  quality : Option JSVal := none
  alphaQuality : Option JSVal := none
  lossless : Option JSVal := none
  nearLossless : Option JSVal := none
  smartSubsample : Option JSVal := none
  smartDeblock : Option JSVal := none
  preset : Option JSVal := none
  effort : Option JSVal := none
  minSize : Option JSVal := none
  mixed : Option JSVal := none
  loop : Option JSVal := none
  delay : Option JSVal := none
  force : Option JSVal := none
deriving DecidableEq

/-- Lines 692-698 of output.js: webp quality validation. -/
def webpQualityStep (o : WebpOpts) (s : SharpOptions) : RRes :=
  if isDefined o.quality then
    if intInRange o.quality 1 100 then ok { s with webpQuality := getNum o.quality }
    else raise s (SharpError.invalidParameter "quality" "integer between 1 and 100" o.quality)
  else ok s

/-- Lines 699-705 of output.js: webp alpha-quality validation. -/
def webpAlphaQualityStep (o : WebpOpts) (s : SharpOptions) : RRes :=
  if isDefined o.alphaQuality then
    if intInRange o.alphaQuality 0 100 then ok { s with webpAlphaQuality := getNum o.alphaQuality }
    else raise s (SharpError.invalidParameter "alphaQuality" "integer between 0 and 100" o.alphaQuality)
  else ok s

/-- Lines 706-717 of output.js: the four webp boolean flags lossless,
nearLossless, smartSubsample and smartDeblock. -/
def webpFlagsStep (o : WebpOpts) (s : SharpOptions) : RRes :=
  andThen
    (if isDefined o.lossless then
      setBooleanOption s "webpLossless" (fun b t => { t with webpLossless := b }) o.lossless
     else ok s)
    fun s =>
      andThen
        (if isDefined o.nearLossless then
          setBooleanOption s "webpNearLossless" (fun b t => { t with webpNearLossless := b }) o.nearLossless
         else ok s)
        fun s =>
          andThen
            (if isDefined o.smartSubsample then
              setBooleanOption s "webpSmartSubsample" (fun b t => { t with webpSmartSubsample := b }) o.smartSubsample
             else ok s)
            fun s =>
              if isDefined o.smartDeblock then
                setBooleanOption s "webpSmartDeblock" (fun b t => { t with webpSmartDeblock := b }) o.smartDeblock
              else ok s

/-- Lines 718-724 of output.js: webp preset validation. -/
def webpPresetStep (o : WebpOpts) (s : SharpOptions) : RRes :=
  if isDefined o.preset then
    if strInArray o.preset ["default", "photo", "picture", "drawing", "icon", "text"] then
      ok { s with webpPreset := getStr o.preset }
    else raise s (SharpError.invalidParameter "preset" "one of: default, photo, picture, drawing, icon, text" o.preset)
  else ok s

/-- Lines 725-731 of output.js: webp effort validation. -/
def webpEffortStep (o : WebpOpts) (s : SharpOptions) : RRes :=
  if isDefined o.effort then
    if intInRange o.effort 0 6 then ok { s with webpEffort := getNum o.effort }
    else raise s (SharpError.invalidParameter "effort" "integer between 0 and 6" o.effort)
  else ok s

/-- Lines 732-738 of output.js: webp minSize and mixed boolean flags. -/
def webpMinSizeMixedStep (o : WebpOpts) (s : SharpOptions) : RRes :=
  andThen
    (if isDefined o.minSize then
      setBooleanOption s "webpMinSize" (fun b t => { t with webpMinSize := b }) o.minSize
     else ok s)
    fun s =>
      if isDefined o.mixed then
        setBooleanOption s "webpMixed" (fun b t => { t with webpMixed := b }) o.mixed
      else ok s

/-- The option-validation body of the webp resolver (lines 691-739). -/
def webpBody (o : WebpOpts) (s : SharpOptions) : RRes :=
  andThen (webpQualityStep o s) fun s =>
  andThen (webpAlphaQualityStep o s) fun s =>
  andThen (webpFlagsStep o s) fun s =>
  andThen (webpPresetStep o s) fun s =>
  andThen (webpEffortStep o s) fun s =>
  webpMinSizeMixedStep o s

/-- Lines 690-741 of output.js: the webp resolver. -/
def webp (options : Option WebpOpts) (s : SharpOptions) : RRes :=
  andThen
    (andThen
      (match options with
       | none => ok s
       | some o => webpBody o s)
      fun s =>
        trySetAnimationOptions (optField WebpOpts.loop options) (optField WebpOpts.delay options) s)
    (updateFormatOut "webp" (optField WebpOpts.force options))

/-- Recognised keys of the jxl resolver options object
(src/lib/output.js lines 1207-1249). -/
structure JxlOpts where
  quality : Option JSVal := none
  distance : Option JSVal := none
  decodingTier : Option JSVal := none
  lossless : Option JSVal := none
  effort : Option JSVal := none
  loop : Option JSVal := none
  delay : Option JSVal := none
  force : Option JSVal := none
deriving DecidableEq

/-- The fixed piecewise quality-to-distance formula of the jxl resolver
(lines 1212-1214 of output.js): linear at or above a quality of 30, quadratic
below it. -/
def jxlQualityToDistance (q : ℚ) : ℚ :=
  if 30 ≤ q then 0.1 + (100 - q) * 0.09
  else 53 / 3000 * q * q - 23 / 20 * q + 25

/-- Lines 1209-1224 of output.js: quality-or-distance resolution for jxl.
A defined quality wins (distance is never read); otherwise a defined distance
is validated and stored directly. -/
def jxlQualityDistanceStep (o : JxlOpts) (s : SharpOptions) : RRes :=
  if isDefined o.quality then
    if intInRange o.quality 1 100 then
      ok { s with jxlDistance := jxlQualityToDistance (getNum o.quality) }
    else raise s (SharpError.invalidParameter "quality" "integer between 1 and 100" o.quality)
  else if isDefined o.distance then
    if numInRange o.distance 0 15 then ok { s with jxlDistance := getNum o.distance }
    else raise s (SharpError.invalidParameter "distance" "number between 0.0 and 15.0" o.distance)
  else ok s

/-- Lines 1225-1231 of output.js: jxl decoding-tier validation. -/
def jxlDecodingTierStep (o : JxlOpts) (s : SharpOptions) : RRes :=
  if isDefined o.decodingTier then
    if intInRange o.decodingTier 0 4 then ok { s with jxlDecodingTier := getNum o.decodingTier }
    else raise s (SharpError.invalidParameter "decodingTier" "integer between 0 and 4" o.decodingTier)
  else ok s

/-- Lines 1232-1238 of output.js: jxl lossless flag. -/
def jxlLosslessStep (o : JxlOpts) (s : SharpOptions) : RRes :=
  if isDefined o.lossless then
    if isBool o.lossless then
      ok { s with jxlLossless := o.lossless == some (JSVal.bool true) }
    else raise s (SharpError.invalidParameter "lossless" "boolean" o.lossless)
  else ok s

/-- Lines 1239-1245 of output.js: jxl effort validation. -/
def jxlEffortStep (o : JxlOpts) (s : SharpOptions) : RRes :=
  if isDefined o.effort then
    if intInRange o.effort 1 9 then ok { s with jxlEffort := getNum o.effort }
    else raise s (SharpError.invalidParameter "effort" "integer between 1 and 9" o.effort)
  else ok s

/-- The option-validation body of the jxl resolver (lines 1208-1246). -/
def jxlBody (o : JxlOpts) (s : SharpOptions) : RRes :=
  andThen (jxlQualityDistanceStep o s) fun s =>
  andThen (jxlDecodingTierStep o s) fun s =>
  andThen (jxlLosslessStep o s) fun s =>
  jxlEffortStep o s

/-- Lines 1207-1249 of output.js: the jxl resolver. -/
def jxl (options : Option JxlOpts) (s : SharpOptions) : RRes :=
  andThen
    (andThen
      (match options with
       | none => ok s
       | some o => jxlBody o s)
      fun s =>
        trySetAnimationOptions (optField JxlOpts.loop options) (optField JxlOpts.delay options) s)
    (updateFormatOut "jxl" (optField JxlOpts.force options))

/-- Recognised keys of the raw output resolver options object
(src/lib/output.js lines 1276-1289). -/
structure RawOpts where
  depth : Option JSVal := none
  force : Option JSVal := none
deriving DecidableEq

/-- Lines 1276-1289 of output.js: the raw output resolver.  Its concluding
`_updateFormatOut` call receives no options object, so the force flag is
never consulted. -/
def raw (options : Option RawOpts) (s : SharpOptions) : RRes :=
  andThen
    (match options with
     | none => ok s
     | some o =>
       if isDefined o.depth then
         if strInArray o.depth ["char", "uchar", "short", "ushort", "int", "uint", "float", "complex", "double", "dpcomplex"] then
           ok { s with rawDepth := getStr o.depth }
         else raise s (SharpError.invalidParameter "depth" "one of: char, uchar, short, ushort, int, uint, float, complex, double, dpcomplex" o.depth)
       else ok s)
    (updateFormatOut "raw" none)

/-- Recognised keys of the tile resolver options object
(src/lib/output.js lines 1337-1431). -/
structure TileOpts where
  size : Option JSVal := none
  overlap : Option JSVal := none
  container : Option JSVal := none
  layout : Option JSVal := none
  angle : Option JSVal := none
  background : Option JSVal := none
  depth : Option JSVal := none
  skipBlanks : Option JSVal := none
  centre : Option JSVal := none
  center : Option JSVal := none
  id : Option JSVal := none
  basename : Option JSVal := none
  force : Option JSVal := none
deriving DecidableEq

/-- Lines 1340-1346 of output.js: tile size validation. -/
def tileSizeStep (o : TileOpts) (s : SharpOptions) : RRes :=
  if isDefined o.size then
    if intInRange o.size 1 8192 then ok { s with tileSize := getNum o.size }
    else raise s (SharpError.invalidParameter "size" "integer between 1 and 8192" o.size)
  else ok s

/-- Lines 1348-1357 of output.js: tile overlap validation, including the
state-dependent upper bound given by the tile size already recorded. -/
def tileOverlapStep (o : TileOpts) (s : SharpOptions) : RRes :=
  if isDefined o.overlap then
    if intInRange o.overlap 0 8192 then
      if decide (s.tileSize < getNum o.overlap) then
        raise s (SharpError.invalidParameter "overlap" ("<= size (" ++ toString s.tileSize ++ ")") o.overlap)
      else ok { s with tileOverlap := getNum o.overlap }
    else raise s (SharpError.invalidParameter "overlap" "integer between 0 and 8192" o.overlap)
  else ok s

/-- Lines 1359-1365 of output.js: tile container validation. -/
def tileContainerStep (o : TileOpts) (s : SharpOptions) : RRes :=
  if isDefined o.container then
    if strInArray o.container ["fs", "zip"] then ok { s with tileContainer := getStr o.container }
    else raise s (SharpError.invalidParameter "container" "one of: fs, zip" o.container)
  else ok s

/-- Lines 1367-1373 of output.js: tile layout validation. -/
def tileLayoutStep (o : TileOpts) (s : SharpOptions) : RRes :=
  if isDefined o.layout then
    if strInArray o.layout ["dz", "google", "iiif", "iiif3", "zoomify"] then
      ok { s with tileLayout := getStr o.layout }
    else raise s (SharpError.invalidParameter "layout" "one of: dz, google, iiif, iiif3, zoomify" o.layout)
  else ok s

/-- Lines 1375-1381 of output.js: tile rotation angle validation (an integer
multiple of 90). -/
def tileAngleStep (o : TileOpts) (s : SharpOptions) : RRes :=
  if isDefined o.angle then
    match o.angle with
    | some (JSVal.num q) =>
      if q.den == 1 && q.num % 90 == 0 then ok { s with tileAngle := q }
      else raise s (SharpError.invalidParameter "angle" "positive/negative multiple of 90" o.angle)
    | _ => raise s (SharpError.invalidParameter "angle" "positive/negative multiple of 90" o.angle)
  else ok s

/-- Modelled from the spec: `_setBackgroundColourOption` (lib/colour.js, not
part of the two files under verification) applied to the tile background; a
defined value is parsed by the external colour module and recorded, an absent
value leaves the default.  The claims never supply a background, so parsing is
modelled as storing the received value. -/
def tileBackgroundStep (o : TileOpts) (s : SharpOptions) : RRes :=
  if isDefined o.background then ok { s with tileBackground := o.background }
  else ok s

/-- Lines 1384-1390 of output.js: tile pyramid depth validation. -/
def tileDepthStep (o : TileOpts) (s : SharpOptions) : RRes :=
  if isDefined o.depth then
    if strInArray o.depth ["onepixel", "onetile", "one"] then ok { s with tileDepth := getStr o.depth }
    else raise s (SharpError.invalidParameter "depth" "one of: onepixel, onetile, one" o.depth)
  else ok s

/-- Lines 1392-1401 of output.js: skip-blank threshold validation, with the
automatic default of 5 when the layout option is google and no threshold was
given. -/
def tileSkipBlanksStep (o : TileOpts) (s : SharpOptions) : RRes :=
  if isDefined o.skipBlanks then
    if intInRange o.skipBlanks (-1) 65535 then ok { s with tileSkipBlanks := getNum o.skipBlanks }
    else raise s (SharpError.invalidParameter "skipBlanks" "integer between -1 and 255/65535" o.skipBlanks)
  else if isDefined o.layout && o.layout == some (JSVal.str "google") then
    ok { s with tileSkipBlanks := 5 }
  else ok s

/-- Lines 1403-1406 of output.js: centre-in-tile spelling alias and boolean
write. -/
def tileCentreStep (o : TileOpts) (s : SharpOptions) : RRes :=
  let centre := if isBool o.center then o.center else o.centre
  if isDefined centre then
    setBooleanOption s "tileCentre" (fun b t => { t with tileCentre := b }) centre
  else ok s

/-- Lines 1408-1414 of output.js: IIIF id attribute validation. -/
def tileIdStep (o : TileOpts) (s : SharpOptions) : RRes :=
  if isDefined o.id then
    if isString o.id then ok { s with tileId := getStr o.id }
    else raise s (SharpError.invalidParameter "id" "string" o.id)
  else ok s

/-- Lines 1416-1422 of output.js: zip basename validation. -/
def tileBasenameStep (o : TileOpts) (s : SharpOptions) : RRes :=
  if isDefined o.basename then
    if isString o.basename then ok { s with tileBasename := getStr o.basename }
    else raise s (SharpError.invalidParameter "basename" "string" o.basename)
  else ok s

/-- Lines 1425-1430 of output.js: the tile output pixel format check, run
whether or not an options object was given: a previously selected jpeg, png
or webp output format becomes the tile format; any other explicit format is
rejected; the sentinel input format is left unresolved. -/
def tileFormatStep (s : SharpOptions) : RRes :=
  if ["jpeg", "png", "webp"].contains s.formatOut then
    ok { s with tileFormat := s.formatOut }
  else if s.formatOut != "input" then
    raise s (SharpError.invalidParameter "format" "one of: jpeg, png, webp" (some (JSVal.str s.formatOut)))
  else ok s

/-- The option-validation body of the tile resolver (lines 1338-1423).  The
concluding `_updateFormatOut` call of the resolver receives no options
object, so the force flag is never consulted. -/
def tileBody (o : TileOpts) (s : SharpOptions) : RRes :=
  andThen (tileSizeStep o s) fun s =>
  andThen (tileOverlapStep o s) fun s =>
  andThen (tileContainerStep o s) fun s =>
  andThen (tileLayoutStep o s) fun s =>
  andThen (tileAngleStep o s) fun s =>
  andThen (tileBackgroundStep o s) fun s =>
  andThen (tileDepthStep o s) fun s =>
  andThen (tileSkipBlanksStep o s) fun s =>
  andThen (tileCentreStep o s) fun s =>
  andThen (tileIdStep o s) fun s =>
  tileBasenameStep o s

/-- Lines 1337-1431 of output.js: the tile resolver assembled from its body,
the format check and the format selection. -/
def tile (options : Option TileOpts) (s : SharpOptions) : RRes :=
  andThen
    (andThen
      (match options with
       | none => ok s
       | some o => tileBody o s)
      tileFormatStep)
    (updateFormatOut "dz" none)

/-- Lines 181-184 of output.js, `keepExif`: set the EXIF bit (0b00001) of the
metadata retention mask. -/
def keepExif (s : SharpOptions) : SharpOptions :=
  { s with keepMetadata := s.keepMetadata ||| 1 }

/-- Lines 270-273 of output.js, `keepIccProfile`: set the ICC bit (0b01000) of
the metadata retention mask. -/
def keepIccProfile (s : SharpOptions) : SharpOptions :=
  { s with keepMetadata := s.keepMetadata ||| 8 }

/-- Lines 327-330 of output.js, `keepXmp`: set the XMP bit (0b00010) of the
metadata retention mask. -/
def keepXmp (s : SharpOptions) : SharpOptions :=
  { s with keepMetadata := s.keepMetadata ||| 2 }

/-- Insertion into the flattened EXIF override mapping
(`this.options.withExif[key] = value` over a plain-object store): replace an
existing key, otherwise append. -/
def objInsert (l : List (String × String)) (k v : String) : List (String × String) :=
  if l.any (fun p => p.1 == k) then l.map (fun p => if p.1 == k then (k, v) else p)
  else l ++ [(k, v)]

/-- Value of one entry of one IFD group of the withExif argument: a string, or
a non-string value carried for error reporting. -/
inductive ExifVal where
  | str (s : String)
  | nonStr (v : Option JSVal)
deriving DecidableEq

/-- Value of one IFD group of the withExif argument: an object of entries, or
a non-object value carried for error reporting. -/
inductive ExifIfdVal where
  | obj (entries : List (String × ExifVal))
  | nonObj (v : Option JSVal)
deriving DecidableEq

/-- The withExif argument: an object keyed by IFD names, or a non-object
value carried for error reporting. -/
inductive ExifArg where
  | obj (ifds : List (String × ExifIfdVal))
  | nonObj (v : Option JSVal)
deriving DecidableEq

/-- Lines 214-220 of output.js: the inner withExif loop over the key/value
entries of one IFD group, flattening each string value into an
exif-ifd-key internal key and failing on any non-string value. -/
def withExifEntryLoop (ifd : String) : List (String × ExifVal) → SharpOptions → RRes
  | [], s => ok s
  | (k, ExifVal.str v) :: rest, s =>
    withExifEntryLoop ifd rest
      { s with withExif := objInsert s.withExif ("exif-" ++ ifd.toLower ++ "-" ++ k) v }
  | (k, ExifVal.nonStr v) :: _, s =>
    raise s (SharpError.invalidParameter (ifd ++ "." ++ k) "string" v)

/-- Lines 212-224 of output.js: the outer withExif loop over IFD groups,
failing on any group that is not an object. -/
def withExifIfdLoop : List (String × ExifIfdVal) → SharpOptions → RRes
  | [], s => ok s
  | (ifd, ExifIfdVal.obj entries) :: rest, s =>
    andThen (withExifEntryLoop ifd entries s) (withExifIfdLoop rest)
  | (ifd, ExifIfdVal.nonObj v) :: _, s =>
    raise s (SharpError.invalidParameter ifd "object" v)

/-- Lines 210-230 of output.js, `withExif`: record explicit EXIF overrides in
replace mode and set the EXIF retention bit via `keepExif`. -/
def withExif (exif : ExifArg) (s : SharpOptions) : RRes :=
  match exif with
  | ExifArg.obj ifds =>
    andThen (withExifIfdLoop ifds s) fun s =>
      ok (keepExif { s with withExifMerge := false })
  | ExifArg.nonObj v => raise s (SharpError.invalidParameter "exif" "object" v)

/-- Lines 250-254 of output.js, `withExifMerge`: behave as `withExif`, then
flag merge-with-source-EXIF mode. -/
def withExifMerge (exif : ExifArg) (s : SharpOptions) : RRes :=
  andThen (withExif exif s) fun s => ok { s with withExifMerge := true }

/-- Options object of `withIccProfile` (line 294 of output.js). -/
structure IccOpts where
  attach : Option JSVal := none
deriving DecidableEq

/-- Lines 294-313 of output.js, `withIccProfile`: record the ICC transform
intent, set the ICC retention bit via `keepIccProfile`, and clear that bit
again when the options carry `attach: false` (the JavaScript
`keepMetadata &= ~0b01000` on a 32-bit operand). -/
def withIccProfile (icc : Option JSVal) (options : Option IccOpts) (s : SharpOptions) : RRes :=
  andThen
    (if isString icc then ok { s with withIccProfile := getStr icc }
     else raise s (SharpError.invalidParameter "icc" "string" icc))
    fun s =>
      let s := keepIccProfile s
      match options with
      | some o =>
        if isDefined o.attach then
          if isBool o.attach then
            if o.attach == some (JSVal.bool false) then
              ok { s with keepMetadata := s.keepMetadata &&& 0xFFFFFFF7 }
            else ok s
          else raise s (SharpError.invalidParameter "attach" "boolean" o.attach)
        else ok s
      | none => ok s

/-- Lines 358-366 of output.js, `withXmp`: record an explicit non-empty XMP
payload and set the XMP retention bit. -/
def withXmp (xmp : Option JSVal) (s : SharpOptions) : RRes :=
  if isString xmp && decide (0 < (getStr xmp).length) then
    ok { s with withXmp := getStr xmp, keepMetadata := s.keepMetadata ||| 2 }
  else raise s (SharpError.invalidParameter "xmp" "non-empty string" xmp)

/-- Model of node:path `extname` for the path shapes exercised here: the
final dot-led suffix of the basename (the part after the last slash), empty
when the basename has no dot or only a leading dot. -/
def extname (p : String) : String :=
  let base := p.data.foldl (fun acc c => if c == '/' then [] else acc ++ [c]) []
  match (base.enum.filter fun q => q.2 == '.').getLast? with
  | none => ""
  | some (0, _) => ""
  | some (i, _) => String.mk (base.drop i)

/-- ASCII lowering of the characters relevant to the JPEG2000 extension test
(the case-insensitive regex flag, modelled for ASCII paths). -/
def lowerExtChar (c : Char) : Char :=
  if c == 'J' then 'j'
  else if c == 'P' then 'p'
  else if c == 'X' then 'x'
  else if c == 'K' then 'k'
  else if c == 'C' then 'c'
  else c

/-- Line 32 of output.js: the JPEG2000 extension test
`/\.(jp[2x]|j2[kc])$/i` applied to the extension of the output path. -/
def jp2RegexTest (ext : String) : Bool :=
  let l := ext.data.map lowerExtChar
  l == ".jp2".data || l == ".jpx".data || l == ".j2k".data || l == ".j2c".data

/-- Outcome of a `toFile` call: a guard error delivered through the callback,
a guard error delivered as a rejected promise, or an engine invocation with
the finalized Job Options record. -/
inductive ToFileResult where
  | callbackError (e : SharpError)
  | rejectedPromise (e : SharpError)
  | pipelineInvoked (s : SharpOptions)
deriving DecidableEq

/-- Lines 73-94 of output.js, `toFile`: evaluate the three guards in order
(missing or non-string path; output path resolving to the same absolute path
as a file-based input; JPEG2000 extension without engine support for JP2 file
output) and only invoke the engine when all pass.  Node path resolution and
the engine capability flag are external collaborators passed as parameters. -/
def toFile (jp2kFileOutput : Bool) (resolve : String → String)
    (inputFile : Option String) (s : SharpOptions)
    (fileOut : Option JSVal) (hasCallback : Bool) : ToFileResult :=
  let e : Option SharpError :=
    if !(isString fileOut) then some (SharpError.message "Missing output file path")
    else if (match inputFile with
             | some f => resolve f == resolve (getStr fileOut)
             | none => false) then
      some (SharpError.message "Cannot use same file for input and output")
    else if jp2RegexTest (extname (getStr fileOut)) && !jp2kFileOutput then
      some (SharpError.message "JP2 output requires libvips with support for OpenJPEG")
    else none
  match e with
  | some e => if hasCallback then ToFileResult.callbackError e else ToFileResult.rejectedPromise e
  | none => ToFileResult.pipelineInvoked { s with fileOut := getStr fileOut }

/-- Element type of a JavaScript typed numeric array, as discriminated by the
constructor switch of the raw-input block (src/lib/input.js lines 189-218). -/
inductive TAKind where
  | u8 | u8c | i8 | u16 | i16 | u32 | i32 | f32 | f64
deriving DecidableEq

/-- Bytes per element of each typed-array kind. -/
def TAKind.bytes : TAKind → Nat
  | TAKind.u8 => 1
  | TAKind.u8c => 1
  | TAKind.i8 => 1
  | TAKind.u16 => 2
  | TAKind.i16 => 2
  | TAKind.u32 => 4
  | TAKind.i32 => 4
  | TAKind.f32 => 4
  | TAKind.f64 => 8

/-- Lines 189-218 of input.js: the constructor-to-raw-depth switch. -/
def TAKind.rawDepthName : TAKind → String
  | TAKind.u8 => "uchar"
  | TAKind.u8c => "uchar"
  | TAKind.i8 => "char"
  | TAKind.u16 => "ushort"
  | TAKind.i16 => "short"
  | TAKind.u32 => "uint"
  | TAKind.i32 => "int"
  | TAKind.f32 => "float"
  | TAKind.f64 => "double"

/-- The raw sub-object of the input options
(src/lib/input.js lines 178-241). -/
structure RawInputOpts where
  width : Option JSVal := none
  height : Option JSVal := none
  channels : Option JSVal := none
  premultiplied : Option JSVal := none
  pageHeight : Option JSVal := none
deriving DecidableEq

/-- The input options object of `_createInputDescriptor`.  The fields whose
validation blocks are embedded are those exercised by the claims (the shared
decode controls and the raw sub-object); the per-format sub-objects
(jp2, openSlide, pdf, svg, tiff), creation, text and join sub-objects act
only when their keys are present and are not modelled. -/
structure InputOptions where
  failOnError : Option JSVal := none
  failOn : Option JSVal := none
  autoOrient : Option JSVal := none
  density : Option JSVal := none
  ignoreIcc : Option JSVal := none
  limitInputPixels : Option JSVal := none
  unlimited : Option JSVal := none
  sequentialRead : Option JSVal := none
  raw : Option RawInputOpts := none
  animated : Option JSVal := none
  pages : Option JSVal := none
  page : Option JSVal := none
deriving DecidableEq

/-- A heterogeneous input value accepted by the Input Descriptor Builder:
path string, byte buffer, fixed-size binary region, typed numeric array,
plain options object, array of inputs for joining, or absent. -/
inductive SInput where
  | str (path : String)
  | buffer (length : Nat)
  | arrayBuffer (byteLength : Nat)
  | typed (kind : TAKind) (length : Nat)
  | plainObj (o : InputOptions)
  | arr (elems : List SInput)
  | undef

/-- Payload of the buffer field of an Input Descriptor: a contiguous byte
buffer of known length, or the empty growable chunk list of a pending
stream. -/
inductive BufferPayload where
  | bytes (byteLength : Nat)
  | streamChunks
deriving DecidableEq

/-- The Input Descriptor record with the defaults installed at the top of
`_createInputDescriptor` (src/lib/input.js lines 54-61). -/
structure InputDescriptor where
  autoOrient : Bool := false
  failOn : String := "warning"
  limitInputPixels : ℚ := 16383 * 16383
  ignoreIcc : Bool := false
  unlimited : Bool := false
  sequentialRead : Bool := true
  file : Option String := none
  buffer : Option BufferPayload := none
  density : Option ℚ := none
  rawWidth : Option ℚ := none
  rawHeight : Option ℚ := none
  rawChannels : Option ℚ := none
  rawDepth : Option String := none
  rawPremultiplied : Option Bool := none
  rawPageHeight : Option ℚ := none
  pages : Option ℚ := none
  page : Option ℚ := none
deriving DecidableEq

/-- Join state of the pipeline instance (`this.options.joining` and
`this.options.join` of src/lib/input.js lines 94-96). -/
structure InstanceOptions where
  joining : Bool := false
  join : Option (List InputDescriptor) := none
deriving DecidableEq

/-- Lines 25-47 of input.js, `_inputOptionsFromObject`: whether a plain-object
input carries any of the allow-listed stream-style keys (restricted to the
modelled fields; the unmodelled per-format sub-objects are absent in every
claim). -/
def inputOptionsFromObject (o : InputOptions) : Bool :=
  [o.failOn, o.limitInputPixels, o.unlimited, o.animated, o.autoOrient, o.density,
   o.ignoreIcc, o.page, o.pages, o.sequentialRead, o.failOnError].any isDefined
  || o.raw.isSome

/-- Lines 108-115 of input.js: the deprecated boolean failOnError option. -/
def inputFailOnErrorStep (o : InputOptions) (d : InputDescriptor) : ERes InputDescriptor :=
  if isDefined o.failOnError then
    if isBool o.failOnError then
      ok { d with failOn := if o.failOnError == some (JSVal.bool true) then "warning" else "none" }
    else raise d (SharpError.invalidParameter "failOnError" "boolean" o.failOnError)
  else ok d

/-- Lines 116-124 of input.js: failure sensitivity level. -/
def inputFailOnStep (o : InputOptions) (d : InputDescriptor) : ERes InputDescriptor :=
  if isDefined o.failOn then
    if strInArray o.failOn ["none", "truncated", "error", "warning"] then
      ok { d with failOn := getStr o.failOn }
    else raise d (SharpError.invalidParameter "failOn" "one of: none, truncated, error, warning" o.failOn)
  else ok d

/-- Lines 126-132 of input.js: auto-orient flag. -/
def inputAutoOrientStep (o : InputOptions) (d : InputDescriptor) : ERes InputDescriptor :=
  if isDefined o.autoOrient then
    if isBool o.autoOrient then ok { d with autoOrient := o.autoOrient == some (JSVal.bool true) }
    else raise d (SharpError.invalidParameter "autoOrient" "boolean" o.autoOrient)
  else ok d

/-- Lines 134-140 of input.js: density (the source range-checks the raw value
without a number check; the JavaScript numeric coercion of non-number values
is outside the model, which accepts numbers only). -/
def inputDensityStep (o : InputOptions) (d : InputDescriptor) : ERes InputDescriptor :=
  if isDefined o.density then
    if numInRange o.density 1 100000 then ok { d with density := some (getNum o.density) }
    else raise d (SharpError.invalidParameter "density" "number between 1 and 100000" o.density)
  else ok d

/-- Lines 142-148 of input.js: ignore-ICC flag. -/
def inputIgnoreIccStep (o : InputOptions) (d : InputDescriptor) : ERes InputDescriptor :=
  if isDefined o.ignoreIcc then
    if isBool o.ignoreIcc then ok { d with ignoreIcc := o.ignoreIcc == some (JSVal.bool true) }
    else raise d (SharpError.invalidParameter "ignoreIcc" "boolean" o.ignoreIcc)
  else ok d

/-- Lines 150-160 of input.js: pixel-count ceiling (boolean shorthand or a
non-negative safe integer). -/
def inputLimitInputPixelsStep (o : InputOptions) (d : InputDescriptor) : ERes InputDescriptor :=
  if isDefined o.limitInputPixels then
    if isBool o.limitInputPixels then
      ok { d with limitInputPixels := if o.limitInputPixels == some (JSVal.bool true) then 16383 * 16383 else 0 }
    else if intInRange o.limitInputPixels 0 9007199254740991 then
      ok { d with limitInputPixels := getNum o.limitInputPixels }
    else raise d (SharpError.invalidParameter "limitInputPixels" "positive integer" o.limitInputPixels)
  else ok d

/-- Lines 162-168 of input.js: unlimited flag. -/
def inputUnlimitedStep (o : InputOptions) (d : InputDescriptor) : ERes InputDescriptor :=
  if isDefined o.unlimited then
    if isBool o.unlimited then ok { d with unlimited := o.unlimited == some (JSVal.bool true) }
    else raise d (SharpError.invalidParameter "unlimited" "boolean" o.unlimited)
  else ok d

/-- Lines 170-176 of input.js: sequential-read flag. -/
def inputSequentialReadStep (o : InputOptions) (d : InputDescriptor) : ERes InputDescriptor :=
  if isDefined o.sequentialRead then
    if isBool o.sequentialRead then ok { d with sequentialRead := o.sequentialRead == some (JSVal.bool true) }
    else raise d (SharpError.invalidParameter "sequentialRead" "boolean" o.sequentialRead)
  else ok d

/-- Lines 222-232 of input.js: the optional premultiplied flag of the raw
sub-object. -/
def inputRawPremultipliedStep (r : RawInputOpts) (d : InputDescriptor) : ERes InputDescriptor :=
  let d := { d with rawPremultiplied := some false }
  if isDefined r.premultiplied then
    if isBool r.premultiplied then ok { d with rawPremultiplied := some (r.premultiplied == some (JSVal.bool true)) }
    else raise d (SharpError.invalidParameter "raw.premultiplied" "boolean" r.premultiplied)
  else ok d

/-- Lines 233-241 of input.js: the optional page-height of the raw
sub-object, required to divide the declared height evenly. -/
def inputRawPageHeightStep (r : RawInputOpts) (d : InputDescriptor) : ERes InputDescriptor :=
  let d := { d with rawPageHeight := some 0 }
  if isDefined r.pageHeight then
    if isInteger r.pageHeight && decide (0 < getNum r.pageHeight)
        && decide (getNum r.pageHeight ≤ getNum r.height) then
      if (getNum r.height).num % (getNum r.pageHeight).num != 0 then
        raise d (SharpError.message
          ("Expected raw.height " ++ toString (getNum r.height)
            ++ " to be a multiple of raw.pageHeight " ++ toString (getNum r.pageHeight)))
      else ok { d with rawPageHeight := some (getNum r.pageHeight) }
    else raise d (SharpError.invalidParameter "raw.pageHeight" "positive integer" r.pageHeight)
  else ok d

/-- Lines 178-241 of input.js: raw pixel input validation, with the declared
bit-depth taken from the constructor of the input value. -/
def inputRawStep (input : SInput) (o : InputOptions) (d : InputDescriptor) : ERes InputDescriptor :=
  match o.raw with
  | none => ok d
  | some r =>
    andThen
      (if isInteger r.width && decide (0 < getNum r.width)
          && isInteger r.height && decide (0 < getNum r.height)
          && intInRange r.channels 1 4 then
        ok { d with rawWidth := some (getNum r.width), rawHeight := some (getNum r.height),
                    rawChannels := some (getNum r.channels),
                    rawDepth := some (match input with
                                      | SInput.typed k _ => k.rawDepthName
                                      | _ => "uchar") }
       else raise d (SharpError.message "Expected width, height and channels for raw pixel input"))
      fun d =>
        andThen (inputRawPremultipliedStep r d) (inputRawPageHeightStep r)

/-- Lines 243-249 of input.js: the animated shorthand for page selection. -/
def inputAnimatedStep (o : InputOptions) (d : InputDescriptor) : ERes InputDescriptor :=
  if isDefined o.animated then
    if isBool o.animated then
      ok { d with pages := some (if o.animated == some (JSVal.bool true) then -1 else 1) }
    else raise d (SharpError.invalidParameter "animated" "boolean" o.animated)
  else ok d

/-- Lines 250-256 of input.js: explicit page-count selection. -/
def inputPagesStep (o : InputOptions) (d : InputDescriptor) : ERes InputDescriptor :=
  if isDefined o.pages then
    if intInRange o.pages (-1) 100000 then ok { d with pages := some (getNum o.pages) }
    else raise d (SharpError.invalidParameter "pages" "integer between -1 and 100000" o.pages)
  else ok d

/-- Lines 257-262 of input.js: explicit start-page selection. -/
def inputPageStep (o : InputOptions) (d : InputDescriptor) : ERes InputDescriptor :=
  if isDefined o.page then
    if intInRange o.page 0 100000 then ok { d with page := some (getNum o.page) }
    else raise d (SharpError.invalidParameter "page" "integer between 0 and 100000" o.page)
  else ok d

/-- Lines 105-520 of input.js: the source-kind-independent validation of the
input options, applied after source-kind resolution (restricted to the
modelled fields). -/
def applyInputOptions (input : SInput) (inputOptions : Option InputOptions)
    (d : InputDescriptor) : ERes InputDescriptor :=
  match inputOptions with
  | none => ok d
  | some o =>
    andThen (inputFailOnErrorStep o d) fun d =>
    andThen (inputFailOnStep o d) fun d =>
    andThen (inputAutoOrientStep o d) fun d =>
    andThen (inputDensityStep o d) fun d =>
    andThen (inputIgnoreIccStep o d) fun d =>
    andThen (inputLimitInputPixelsStep o d) fun d =>
    andThen (inputUnlimitedStep o d) fun d =>
    andThen (inputSequentialReadStep o d) fun d =>
    andThen (inputRawStep input o d) fun d =>
    andThen (inputAnimatedStep o d) fun d =>
    andThen (inputPagesStep o d) (inputPageStep o)

mutual

/-- Lines 53-104 of input.js, `_createInputDescriptor`: source-kind dispatch
followed by the shared input-options validation, threading the join state of
the pipeline instance.  The nested-array case recurses exactly as the source
does (one recursive build per element, with the joining flag already set). -/
def createInputDescriptor (inst : InstanceOptions) (input : SInput)
    (inputOptions : Option InputOptions) (allowStream : Bool) :
    InstanceOptions × ERes InputDescriptor :=
  match input with
  | SInput.str p => (inst, applyInputOptions input inputOptions { file := some p })
  | SInput.buffer len =>
    if len == 0 then (inst, raise {} (SharpError.message "Input Buffer is empty"))
    else (inst, applyInputOptions input inputOptions { buffer := some (BufferPayload.bytes len) })
  | SInput.arrayBuffer byteLen =>
    if byteLen == 0 then (inst, raise {} (SharpError.message "Input bit Array is empty"))
    else (inst, applyInputOptions input inputOptions { buffer := some (BufferPayload.bytes byteLen) })
  | SInput.typed kind len =>
    if len == 0 then (inst, raise {} (SharpError.message "Input Bit Array is empty"))
    else (inst, applyInputOptions input inputOptions { buffer := some (BufferPayload.bytes (len * kind.bytes)) })
  | SInput.plainObj o =>
    if inputOptions == none then
      let d : InputDescriptor := if inputOptionsFromObject o then { buffer := some BufferPayload.streamChunks } else {}
      (inst, applyInputOptions input (some o) d)
    else (inst, raise {} (SharpError.message "Unsupported input type"))
  | SInput.undef =>
    if inputOptions == none && allowStream then
      (inst, applyInputOptions input none { buffer := some BufferPayload.streamChunks })
    else (inst, raise {} (SharpError.message "Unsupported input type"))
  | SInput.arr elems =>
    if 1 < elems.length then
      if !inst.joining then
        let inst1 : InstanceOptions := { inst with joining := true }
        let r := createInputDescriptorList inst1 elems
        match r with
        | (inst2, (ds, none)) =>
          ({ inst2 with join := some ds }, applyInputOptions input inputOptions {})
        | (inst2, (_, some e)) => (inst2, raise {} e)
      else (inst, raise {} (SharpError.message "Recursive join is unsupported"))
    else (inst, raise {} (SharpError.message "Expected at least two images to join"))

/-- The element-wise recursive build of a join
(`input.map(i => this._createInputDescriptor(i))`, line 96 of input.js):
each element is built with no options, stopping at the first thrown error. -/
def createInputDescriptorList (inst : InstanceOptions) :
    List SInput → InstanceOptions × (List InputDescriptor × Option SharpError)
  | [] => (inst, ([], none))
  | x :: xs =>
    match createInputDescriptor inst x none false with
    | (inst1, (d, none)) =>
      match createInputDescriptorList inst1 xs with
      | (inst2, (ds, e)) => (inst2, (d :: ds, e))
    | (inst1, (_, some e)) => (inst1, ([], some e))

end

/-- Validity of the png option fields whose checks run before the palette
assignment of line 626-630 (progressive, compressionLevel, adaptiveFiltering
and the resolved colour count): when these pass, execution reaches the
palette logic. -/
def pngPrePaletteOk (o : PngOpts) : Bool :=
  (!isDefined o.progressive || isBool o.progressive) &&
  (!isDefined o.compressionLevel || intInRange o.compressionLevel 0 9) &&
  (!isDefined o.adaptiveFiltering || isBool o.adaptiveFiltering) &&
  (!isDefined (jsOr o.colours o.colors) || intInRange (jsOr o.colours o.colors) 2 256)

/-- Validity of the jxl quality-or-distance block (lines 1209-1224): the block
completes normally exactly when a defined quality is valid, or quality is
absent and any defined distance is valid. -/
def jxlQualityDistanceOk (o : JxlOpts) : Bool :=
  if isDefined o.quality then intInRange o.quality 1 100
  else !isDefined o.distance || numInRange o.distance 0 15

/-- An absent value is falsy. -/
theorem truthy_none : truthy none = false := rfl

/-- Sequencing after normal completion runs the continuation. -/
@[simp] theorem andThen_ok {σ : Type} (s : σ) (f : σ → ERes σ) :
    andThen (ok s) f = f s := rfl

/-- Sequencing after a throw propagates the throw and its state. -/
@[simp] theorem andThen_raise {σ : Type} (s : σ) (e : SharpError) (f : σ → ERes σ) :
    andThen (raise s e) f = raise s e := rfl

/-- State component of a normal completion. -/
@[simp] theorem ok_fst {σ : Type} (s : σ) : (ok s).1 = s := rfl

/-- State component of a throw. -/
@[simp] theorem raise_fst {σ : Type} (s : σ) (e : SharpError) : (raise s e).1 = s := rfl

/-- Error component of a normal completion. -/
@[simp] theorem ok_snd {σ : Type} (s : σ) : (ok s).2 = none := rfl

/-- Error component of a throw. -/
@[simp] theorem raise_snd {σ : Type} (s : σ) (e : SharpError) : (raise s e).2 = some e := rfl

/-- A property of the reached state is preserved through sequencing when the
first step establishes it and the continuation preserves it. -/
theorem andThen_pres {σ : Type} {P : σ → Prop} {r : ERes σ} {f : σ → ERes σ}
    (hr : P r.1) (hf : ∀ t, P t → P (f t).1) : P (andThen r f).1 := by
  rcases r with ⟨s, e⟩
  cases e with
  | none => exact hf s hr
  | some e => exact hr

/-- A projected field of the reached state keeps a value through sequencing
when the first step establishes it and the continuation preserves it. -/
theorem andThen_field {σ β : Type} (g : σ → β) {r : ERes σ} {f : σ → ERes σ} {v : β}
    (hr : g r.1 = v) (hf : ∀ u, g u = v → g (f u).1 = v) : g (andThen r f).1 = v := by
  rcases r with ⟨s, e⟩
  cases e with
  | none => exact hf s hr
  | some e => exact hr

/-- Sequencing after a step known to have completed normally runs the
continuation on its state. -/
theorem andThen_eq_of_none {σ : Type} {r : ERes σ} (h : r.2 = none) (f : σ → ERes σ) :
    andThen r f = f r.1 := by
  rcases r with ⟨s, e⟩
  cases e with
  | none => rfl
  | some e => exact absurd h (by simp)

/-- A successful sequence means the first step completed normally. -/
theorem andThen_none_left {σ : Type} {r : ERes σ} {f : σ → ERes σ}
    (h : (andThen r f).2 = none) : r.2 = none := by
  rcases r with ⟨s, e⟩
  cases e with
  | none => rfl
  | some e => exact absurd h (by simp [andThen, raise])

/-- Claim C1, counterexample: the spec law `bitdepthFromColourCount n =
2 ^ ceil(log2 n)` fails already at n = 2, where the source conversion yields
1 (and not the claimed 2). -/
theorem c1_bitdepth_counterexample :
    bitdepthFromColourCount 2 = 1 ∧
    bitdepthFromColourCount 2 ≠ specBitdepthFromColourCount 2 ∧
    bitdepthFromColourCount 2 ≠ 2 := by
  decide

set_option maxRecDepth 4000 in
/-- Claim C1, amended: for every integer n in [2,256] the conversion satisfies
`bitdepthFromColourCount n = 2 ^ floor(log2(ceil(log2 n)))` (the largest power
of two not exceeding the ceiling log, giving the PNG bit-depths 1, 2, 4, 8);
in particular it maps 2 to 1, 256 to 8, 3 to 2 and 17 to 4; and
`png({colours: n})` and `gif({colours: n})` store exactly this value into
pngBitdepth and gifBitdepth. -/
theorem c1_bitdepth_amended :
    (∀ n : ℕ, n ≤ 256 → 2 ≤ n →
      bitdepthFromColourCount n = 2 ^ floorLog2 (mathCeilLog2 n)) ∧
    bitdepthFromColourCount 2 = 1 ∧ bitdepthFromColourCount 256 = 8 ∧
    bitdepthFromColourCount 3 = 2 ∧ bitdepthFromColourCount 17 = 4 ∧
    (∀ n : ℕ, n ≤ 256 → 2 ≤ n → ∀ s : SharpOptions,
      st (png (some { colours := some (JSVal.num n) }) s) =
        { s with pngBitdepth := bitdepthFromColourCount n, pngPalette := true,
                 formatOut := "png" }) ∧
    (∀ n : ℕ, n ≤ 256 → 2 ≤ n → ∀ s : SharpOptions,
      st (gif (some { colours := some (JSVal.num n) }) s) =
        { s with gifBitdepth := bitdepthFromColourCount n, formatOut := "gif" }) := by
  refine ⟨by decide, by decide, by decide, by decide, by decide, ?_, ?_⟩
  · intro n h256 h2 s
    have hden : ((n : ℚ)).den = 1 := Rat.den_natCast n
    have h2q : (2 : ℚ) ≤ (n : ℚ) := by exact_mod_cast h2
    have h256q : ((n : ℚ)) ≤ 256 := by exact_mod_cast h256
    have hne : ((n : ℚ)) ≠ 0 := by positivity
    simp [png, pngBody, pngProgressiveStep, pngCompressionLevelStep, pngAdaptiveFilteringStep,
      pngColoursStep, pngPaletteStep, pngPaletteGroupStep, updateFormatOut,
      setBooleanOption, optField, jsOr, truthy, isDefined, intInRange, getNum,
      hden, h2q, h256q, hne, st, ok, andThen, raise]
  · intro n h256 h2 s
    have hden : ((n : ℚ)).den = 1 := Rat.den_natCast n
    have h2q : (2 : ℚ) ≤ (n : ℚ) := by exact_mod_cast h2
    have h256q : ((n : ℚ)) ≤ 256 := by exact_mod_cast h256
    have hne : ((n : ℚ)) ≠ 0 := by positivity
    simp [gif, gifBody, gifReuseStep, gifProgressiveStep, gifColoursStep, gifEffortStep,
      gifDitherStep, gifInterFrameStep, gifInterPaletteStep, gifKeepDuplicateFramesStep,
      trySetAnimationOptions, animationLoopStep, animationDelayStep, updateFormatOut,
      setBooleanOption, optField, jsOr, truthy, isDefined, intInRange, getNum,
      hden, h2q, h256q, hne, st, ok, andThen, raise]

/-- Claim C1, witness: the amended law evaluated at the concrete colour counts
17 and 16 (16 colours give a stored bit-depth of 4, not 16). -/
theorem c1_bitdepth_amended_witness :
    bitdepthFromColourCount 17 = 2 ^ floorLog2 (mathCeilLog2 17) ∧
    st (png (some { colours := some (JSVal.num 16) }) initOptions) =
      { initOptions with
          pngBitdepth := bitdepthFromColourCount 16
          pngPalette := true
          formatOut := "png" } ∧
    st (gif (some { colours := some (JSVal.num 16) }) initOptions) =
      { initOptions with gifBitdepth := bitdepthFromColourCount 16, formatOut := "gif" } ∧
    bitdepthFromColourCount 16 = 4 := by
  refine ⟨c1_bitdepth_amended.1 17 (by decide) (by decide), ?_, ?_, by decide⟩
  · have h := c1_bitdepth_amended.2.2.2.2.2.1 16 (by decide) (by decide) initOptions
    exact_mod_cast h
  · have h := c1_bitdepth_amended.2.2.2.2.2.2 16 (by decide) (by decide) initOptions
    exact_mod_cast h

/-- A value satisfying the boolean predicate is some boolean. -/
theorem isBool_exists {v : Option JSVal} (h : isBool v = true) :
    ∃ b, v = some (JSVal.bool b) := by
  cases v with
  | none => simp [isBool] at h
  | some x =>
    cases x with
    | bool b => exact ⟨b, rfl⟩
    | num q => simp [isBool] at h
    | str t => simp [isBool] at h
    | numArr l => simp [isBool] at h

/-- A value passing an integer range check is defined. -/
theorem isDefined_of_intInRange {v : Option JSVal} {lo hi : ℚ}
    (h : intInRange v lo hi = true) : isDefined v = true := by
  cases v with
  | none => simp [intInRange] at h
  | some x => rfl

/-- The updater of `_setBooleanOption` runs exactly when the value is a
boolean. -/
theorem setBooleanOption_ok {s : SharpOptions} {key : String}
    {upd : Bool → SharpOptions → SharpOptions} {v : Option JSVal}
    (h : isBool v = true) : ∃ b, setBooleanOption s key upd v = ok (upd b s) := by
  obtain ⟨b, rfl⟩ := isBool_exists h
  exact ⟨b, rfl⟩

/-- The png progressive block completes normally and leaves the palette flag
unchanged when its option is absent or boolean. -/
theorem pngProgressiveStep_ok {o : PngOpts} {s : SharpOptions}
    (h : isDefined o.progressive = false ∨ isBool o.progressive = true) :
    ∃ t, pngProgressiveStep o s = ok t ∧ t.pngPalette = s.pngPalette := by
  unfold pngProgressiveStep
  rcases h with h | h
  · rw [if_neg (by simp [h])]
    exact ⟨s, rfl, rfl⟩
  · obtain ⟨b, hb⟩ := isBool_exists h
    rw [hb]
    exact ⟨_, rfl, rfl⟩

/-- The png compression-level block completes normally and leaves the palette
flag unchanged when its option is absent or valid. -/
theorem pngCompressionLevelStep_ok {o : PngOpts} {s : SharpOptions}
    (h : isDefined o.compressionLevel = false ∨ intInRange o.compressionLevel 0 9 = true) :
    ∃ t, pngCompressionLevelStep o s = ok t ∧ t.pngPalette = s.pngPalette := by
  unfold pngCompressionLevelStep
  rcases h with h | h
  · rw [if_neg (by simp [h])]
    exact ⟨s, rfl, rfl⟩
  · have hd := isDefined_of_intInRange h
    rw [if_pos hd, if_pos h]
    exact ⟨_, rfl, rfl⟩

/-- The png adaptive-filtering block completes normally and leaves the palette
flag unchanged when its option is absent or boolean. -/
theorem pngAdaptiveFilteringStep_ok {o : PngOpts} {s : SharpOptions}
    (h : isDefined o.adaptiveFiltering = false ∨ isBool o.adaptiveFiltering = true) :
    ∃ t, pngAdaptiveFilteringStep o s = ok t ∧ t.pngPalette = s.pngPalette := by
  unfold pngAdaptiveFilteringStep
  rcases h with h | h
  · rw [if_neg (by simp [h])]
    exact ⟨s, rfl, rfl⟩
  · obtain ⟨b, hb⟩ := isBool_exists h
    rw [hb]
    exact ⟨_, rfl, rfl⟩

/-- The png colour-count block completes normally and leaves the palette flag
unchanged when the resolved colour count is absent or valid. -/
theorem pngColoursStep_ok {o : PngOpts} {s : SharpOptions}
    (h : isDefined (jsOr o.colours o.colors) = false ∨
         intInRange (jsOr o.colours o.colors) 2 256 = true) :
    ∃ t, pngColoursStep o s = ok t ∧ t.pngPalette = s.pngPalette := by
  unfold pngColoursStep
  rcases h with h | h
  · rw [if_neg (by simp [h])]
    exact ⟨s, rfl, rfl⟩
  · have hd := isDefined_of_intInRange h
    rw [if_pos hd, if_pos h]
    exact ⟨_, rfl, rfl⟩

/-- With the palette option absent and at least one trigger option defined,
the palette block of lines 626-630 turns palette mode on. -/
theorem pngPaletteStep_trigger {o : PngOpts} {s : SharpOptions}
    (hpal : o.palette = none)
    (htrig : [o.quality, o.effort, o.colours, o.colors, o.dither].any isDefined = true) :
    pngPaletteStep o s = ok { s with pngPalette := true } := by
  unfold pngPaletteStep
  rw [hpal, if_pos htrig]
  rfl

/-- With an explicit boolean palette option, the palette block of lines
626-630 stores exactly that boolean. -/
theorem pngPaletteStep_explicit {o : PngOpts} {s : SharpOptions} {b : Bool}
    (hpal : o.palette = some (JSVal.bool b)) :
    pngPaletteStep o s = ok { s with pngPalette := b } := by
  unfold pngPaletteStep
  rw [hpal]
  rfl

/-- The palette-only group never writes the palette flag. -/
theorem pngPaletteGroupStep_palette (o : PngOpts) (t : SharpOptions) :
    ((pngPaletteGroupStep o t).1).pngPalette = t.pngPalette := by
  unfold pngPaletteGroupStep
  split
  · apply andThen_field SharpOptions.pngPalette
    · split
      · split <;> rfl
      · rfl
    · intro u hu
      apply andThen_field SharpOptions.pngPalette
      · split
        · split <;> exact hu
        · exact hu
      · intro w hw
        split
        · split <;> exact hw
        · exact hw
  · rfl

/-- The format-selection epilogue never writes the palette flag. -/
theorem updateFormatOut_palette (n : String) (f : Option JSVal) (t : SharpOptions) :
    ((updateFormatOut n f t).1).pngPalette = t.pngPalette := by
  unfold updateFormatOut
  split <;> rfl

/-- Claim C2, counterexample: a png call whose options leave palette undefined
and define a colour count nevertheless leaves palette mode off when the colour
count fails its own validation (the call throws before the palette logic). -/
theorem c2_palette_trigger_counterexample :
    ({ colours := some (JSVal.num 999) } : PngOpts).palette = none ∧
    isDefined ({ colours := some (JSVal.num 999) } : PngOpts).colours = true ∧
    ((png (some { colours := some (JSVal.num 999) }) initOptions).1).pngPalette = false := by
  decide

/-- Claim C2, amended: provided the option fields validated before the palette
assignment (progressive, compressionLevel, adaptiveFiltering and the resolved
colour count) are absent or valid, a png call with palette undefined and at
least one of quality, effort, colours, colors, dither defined sets pngPalette
to true; and an explicit boolean palette option is stored as given, the
implicit trigger not applying. -/
theorem c2_palette_trigger_amended :
    ∀ (o : PngOpts) (s : SharpOptions), pngPrePaletteOk o = true →
      (o.palette = none →
        [o.quality, o.effort, o.colours, o.colors, o.dither].any isDefined = true →
        ((png (some o) s).1).pngPalette = true) ∧
      (∀ b : Bool, o.palette = some (JSVal.bool b) →
        ((png (some o) s).1).pngPalette = b) := by
  intro o s hok
  rw [pngPrePaletteOk] at hok
  simp only [Bool.and_eq_true, Bool.or_eq_true, Bool.not_eq_true'] at hok
  obtain ⟨⟨⟨h1, h2⟩, h3⟩, h4⟩ := hok
  have chain : ∀ {r : SharpOptions} (hpal : ∀ t : SharpOptions,
        (pngPaletteStep o t).1.pngPalette = r.pngPalette ∧ (pngPaletteStep o t).2 = none),
      ((png (some o) s).1).pngPalette = r.pngPalette := by
    intro r hpal
    simp only [png, optField]
    apply andThen_field SharpOptions.pngPalette
    · unfold pngBody
      obtain ⟨t1, ht1, _⟩ := pngProgressiveStep_ok (o := o) (s := s) h1
      rw [ht1, andThen_ok]
      obtain ⟨t2, ht2, _⟩ := pngCompressionLevelStep_ok (o := o) (s := t1) h2
      rw [ht2, andThen_ok]
      obtain ⟨t3, ht3, _⟩ := pngAdaptiveFilteringStep_ok (o := o) (s := t2) h3
      rw [ht3, andThen_ok]
      obtain ⟨t4, ht4, _⟩ := pngColoursStep_ok (o := o) (s := t3) h4
      rw [ht4, andThen_ok]
      rw [andThen_eq_of_none (hpal t4).2]
      rw [pngPaletteGroupStep_palette]
      exact (hpal t4).1
    · intro u hu
      rw [updateFormatOut_palette]
      exact hu
  constructor
  · intro hpal htrig
    have := chain (r := { s with pngPalette := true })
      (fun t => by rw [pngPaletteStep_trigger hpal htrig]; exact ⟨rfl, rfl⟩)
    simpa using this
  · intro b hpal
    have := chain (r := { s with pngPalette := b })
      (fun t => by rw [pngPaletteStep_explicit hpal]; exact ⟨rfl, rfl⟩)
    simpa using this

/-- Claim C2, witness: the amended palette-trigger law at the concrete calls
png with 16 colours (palette implicitly on) and png with an explicit palette
of false alongside a dither value (explicit value wins). -/
theorem c2_palette_trigger_amended_witness :
    ((png (some { colours := some (JSVal.num 16) }) initOptions).1).pngPalette = true ∧
    ((png (some { palette := some (JSVal.bool false), dither := some (JSVal.num (1/2)) }) initOptions).1).pngPalette = false := by
  constructor
  · exact (c2_palette_trigger_amended { colours := some (JSVal.num 16) } initOptions (by decide)).1
      rfl (by decide)
  · exact (c2_palette_trigger_amended { palette := some (JSVal.bool false), dither := some (JSVal.num (1/2)) }
      initOptions (by decide)).2 false rfl

/-- Claim C3, counterexample: with the falsy colour count 0, the two png
spellings are not equivalent — `colours: 0` falls through the alias resolution
(palette mode is still triggered and the call completes), while `colors: 0`
is validated and throws; the produced results differ. -/
theorem c3_alias_counterexample :
    png (some { colours := some (JSVal.num 0) }) initOptions ≠
      png (some { colors := some (JSVal.num 0) }) initOptions ∧
    ((png (some { colours := some (JSVal.num 0) }) initOptions).2 = none ∧
      (png (some { colors := some (JSVal.num 0) }) initOptions).2 ≠ none) := by
  decide

/-- Claim C3, amended: the spelling aliases are equivalent whenever the
supplied value is truthy (every nonzero number in particular): png and gif
with `colors: v` produce exactly the result of `colours: v`; jpeg with a
boolean `optimizeCoding` matches `optimiseCoding`; tile with a boolean
`center` matches `centre`.  The falsy value 0 (and the empty string) breaks
the png/gif equivalence because the alias resolution uses JavaScript
truthiness. -/
theorem c3_alias_amended :
    (∀ (v : JSVal) (s : SharpOptions), truthy (some v) = true →
      png (some { colours := some v }) s = png (some { colors := some v }) s) ∧
    (∀ (v : JSVal) (s : SharpOptions), truthy (some v) = true →
      gif (some { colours := some v }) s = gif (some { colors := some v }) s) ∧
    (∀ (b : Bool) (s : SharpOptions),
      jpeg (some { optimizeCoding := some (JSVal.bool b) }) s =
        jpeg (some { optimiseCoding := some (JSVal.bool b) }) s) ∧
    (∀ (b : Bool) (s : SharpOptions),
      tile (some { center := some (JSVal.bool b) }) s =
        tile (some { centre := some (JSVal.bool b) }) s) := by
  refine ⟨?_, ?_, ?_, ?_⟩
  · intro v s hv
    simp [png, pngBody, pngProgressiveStep, pngCompressionLevelStep,
      pngAdaptiveFilteringStep, pngColoursStep, pngPaletteStep, pngPaletteGroupStep,
      optField, jsOr, truthy_none, hv, isDefined, setBooleanOption, updateFormatOut]
  · intro v s hv
    simp [gif, gifBody, gifReuseStep, gifProgressiveStep, gifColoursStep, gifEffortStep,
      gifDitherStep, gifInterFrameStep, gifInterPaletteStep, gifKeepDuplicateFramesStep,
      trySetAnimationOptions, animationLoopStep, animationDelayStep,
      optField, jsOr, truthy_none, hv, isDefined, setBooleanOption, updateFormatOut]
  · intro b s
    simp [jpeg, jpegBody, jpegQualityStep, jpegProgressiveStep, jpegChromaStep,
      jpegOptimiseCodingStep, jpegMozjpegStep, jpegTrellisStep, jpegOvershootStep,
      jpegOptimiseScansStep, jpegQuantisationStep, optField, isBool, isNumber,
      isDefined, setBooleanOption, updateFormatOut]
  · intro b s
    simp [tile, tileBody, tileSizeStep, tileOverlapStep, tileContainerStep,
      tileLayoutStep, tileAngleStep, tileBackgroundStep, tileDepthStep,
      tileSkipBlanksStep, tileCentreStep, tileIdStep, tileBasenameStep,
      tileFormatStep, optField, isBool, isDefined, setBooleanOption, updateFormatOut]

/-- Claim C3, witness: the amended alias equivalences at the concrete value 64
and the concrete boolean true. -/
theorem c3_alias_amended_witness :
    png (some { colours := some (JSVal.num 64) }) initOptions =
      png (some { colors := some (JSVal.num 64) }) initOptions ∧
    gif (some { colours := some (JSVal.num 64) }) initOptions =
      gif (some { colors := some (JSVal.num 64) }) initOptions ∧
    jpeg (some { optimizeCoding := some (JSVal.bool true) }) initOptions =
      jpeg (some { optimiseCoding := some (JSVal.bool true) }) initOptions ∧
    tile (some { center := some (JSVal.bool true) }) initOptions =
      tile (some { centre := some (JSVal.bool true) }) initOptions :=
  ⟨c3_alias_amended.1 (JSVal.num 64) initOptions (by decide),
   c3_alias_amended.2.1 (JSVal.num 64) initOptions (by decide),
   c3_alias_amended.2.2.1 true initOptions,
   c3_alias_amended.2.2.2 true initOptions⟩

/-- The jpeg quality block never writes the output format. -/
theorem jpegQualityStep_formatOut (o : JpegOpts) (s : SharpOptions) :
    ((jpegQualityStep o s).1).formatOut = s.formatOut := by
  unfold jpegQualityStep
  repeat' split
  all_goals rfl

/-- The jpeg progressive block never writes the output format. -/
theorem jpegProgressiveStep_formatOut (o : JpegOpts) (s : SharpOptions) :
    ((jpegProgressiveStep o s).1).formatOut = s.formatOut := by
  unfold jpegProgressiveStep setBooleanOption
  repeat' split
  all_goals rfl

/-- The jpeg chroma block never writes the output format. -/
theorem jpegChromaStep_formatOut (o : JpegOpts) (s : SharpOptions) :
    ((jpegChromaStep o s).1).formatOut = s.formatOut := by
  unfold jpegChromaStep
  repeat' split
  all_goals rfl

/-- The jpeg optimise-coding block never writes the output format. -/
theorem jpegOptimiseCodingStep_formatOut (o : JpegOpts) (s : SharpOptions) :
    ((jpegOptimiseCodingStep o s).1).formatOut = s.formatOut := by
  unfold jpegOptimiseCodingStep setBooleanOption
  dsimp only
  repeat' split
  all_goals rfl

/-- The mozjpeg bundle block never writes the output format. -/
theorem jpegMozjpegStep_formatOut (o : JpegOpts) (s : SharpOptions) :
    ((jpegMozjpegStep o s).1).formatOut = s.formatOut := by
  unfold jpegMozjpegStep
  repeat' split
  all_goals rfl

/-- The jpeg trellis block never writes the output format. -/
theorem jpegTrellisStep_formatOut (o : JpegOpts) (s : SharpOptions) :
    ((jpegTrellisStep o s).1).formatOut = s.formatOut := by
  unfold jpegTrellisStep setBooleanOption
  dsimp only
  repeat' split
  all_goals rfl

/-- The jpeg overshoot block never writes the output format. -/
theorem jpegOvershootStep_formatOut (o : JpegOpts) (s : SharpOptions) :
    ((jpegOvershootStep o s).1).formatOut = s.formatOut := by
  unfold jpegOvershootStep setBooleanOption
  repeat' split
  all_goals rfl

/-- Helper for the optimise-scans block: writing the boolean and the implied
progressive flag never writes the output format, whatever the alias value. -/
theorem jpegScansWrite_formatOut (v : Option JSVal) (s : SharpOptions) :
    ((if isDefined v = true then
        andThen (setBooleanOption s "jpegOptimiseScans" (fun b t => { t with jpegOptimiseScans := b }) v)
          (fun t => if truthy v then ok { t with jpegProgressive := true } else ok t)
      else ok s).1).formatOut = s.formatOut := by
  split
  · apply andThen_field SharpOptions.formatOut
    · unfold setBooleanOption
      split <;> rfl
    · intro u hu
      split <;> exact hu
  · rfl

/-- The jpeg optimise-scans block never writes the output format. -/
theorem jpegOptimiseScansStep_formatOut (o : JpegOpts) (s : SharpOptions) :
    ((jpegOptimiseScansStep o s).1).formatOut = s.formatOut := by
  unfold jpegOptimiseScansStep
  dsimp only
  exact jpegScansWrite_formatOut _ s

/-- The jpeg quantisation-table block never writes the output format. -/
theorem jpegQuantisationStep_formatOut (o : JpegOpts) (s : SharpOptions) :
    ((jpegQuantisationStep o s).1).formatOut = s.formatOut := by
  unfold jpegQuantisationStep
  dsimp only
  repeat' split
  all_goals rfl

/-- The jpeg option-validation body never writes the output format. -/
theorem jpegBody_formatOut (o : JpegOpts) (s : SharpOptions) :
    ((jpegBody o s).1).formatOut = s.formatOut := by
  unfold jpegBody
  apply andThen_field SharpOptions.formatOut (jpegQualityStep_formatOut o s)
  intro u h
  apply andThen_field SharpOptions.formatOut ((jpegProgressiveStep_formatOut o u).trans h)
  intro u h
  apply andThen_field SharpOptions.formatOut ((jpegChromaStep_formatOut o u).trans h)
  intro u h
  apply andThen_field SharpOptions.formatOut ((jpegOptimiseCodingStep_formatOut o u).trans h)
  intro u h
  apply andThen_field SharpOptions.formatOut ((jpegMozjpegStep_formatOut o u).trans h)
  intro u h
  apply andThen_field SharpOptions.formatOut ((jpegTrellisStep_formatOut o u).trans h)
  intro u h
  apply andThen_field SharpOptions.formatOut ((jpegOvershootStep_formatOut o u).trans h)
  intro u h
  apply andThen_field SharpOptions.formatOut ((jpegOptimiseScansStep_formatOut o u).trans h)
  intro u h
  exact (jpegQuantisationStep_formatOut o u).trans h

/-- The png progressive block never writes the output format. -/
theorem pngProgressiveStep_formatOut (o : PngOpts) (s : SharpOptions) :
    ((pngProgressiveStep o s).1).formatOut = s.formatOut := by
  unfold pngProgressiveStep setBooleanOption
  repeat' split
  all_goals rfl

/-- The png compression-level block never writes the output format. -/
theorem pngCompressionLevelStep_formatOut (o : PngOpts) (s : SharpOptions) :
    ((pngCompressionLevelStep o s).1).formatOut = s.formatOut := by
  unfold pngCompressionLevelStep
  repeat' split
  all_goals rfl

/-- The png adaptive-filtering block never writes the output format. -/
theorem pngAdaptiveFilteringStep_formatOut (o : PngOpts) (s : SharpOptions) :
    ((pngAdaptiveFilteringStep o s).1).formatOut = s.formatOut := by
  unfold pngAdaptiveFilteringStep setBooleanOption
  repeat' split
  all_goals rfl

/-- The png colour-count block never writes the output format. -/
theorem pngColoursStep_formatOut (o : PngOpts) (s : SharpOptions) :
    ((pngColoursStep o s).1).formatOut = s.formatOut := by
  unfold pngColoursStep
  dsimp only
  repeat' split
  all_goals rfl

/-- The png palette block never writes the output format. -/
theorem pngPaletteStep_formatOut (o : PngOpts) (s : SharpOptions) :
    ((pngPaletteStep o s).1).formatOut = s.formatOut := by
  unfold pngPaletteStep setBooleanOption
  repeat' split
  all_goals rfl

/-- The png palette-only group never writes the output format. -/
theorem pngPaletteGroupStep_formatOut (o : PngOpts) (s : SharpOptions) :
    ((pngPaletteGroupStep o s).1).formatOut = s.formatOut := by
  unfold pngPaletteGroupStep
  split
  · apply andThen_field SharpOptions.formatOut
    · split
      · split <;> rfl
      · rfl
    · intro u hu
      apply andThen_field SharpOptions.formatOut
      · split
        · split <;> exact hu
        · exact hu
      · intro w hw
        split
        · split <;> exact hw
        · exact hw
  · rfl

/-- The png option-validation body never writes the output format. -/
theorem pngBody_formatOut (o : PngOpts) (s : SharpOptions) :
    ((pngBody o s).1).formatOut = s.formatOut := by
  unfold pngBody
  apply andThen_field SharpOptions.formatOut (pngProgressiveStep_formatOut o s)
  intro u h
  apply andThen_field SharpOptions.formatOut ((pngCompressionLevelStep_formatOut o u).trans h)
  intro u h
  apply andThen_field SharpOptions.formatOut ((pngAdaptiveFilteringStep_formatOut o u).trans h)
  intro u h
  apply andThen_field SharpOptions.formatOut ((pngColoursStep_formatOut o u).trans h)
  intro u h
  apply andThen_field SharpOptions.formatOut ((pngPaletteStep_formatOut o u).trans h)
  intro u h
  exact (pngPaletteGroupStep_formatOut o u).trans h

/-- The gif reuse block never writes the output format. -/
theorem gifReuseStep_formatOut (o : GifOpts) (s : SharpOptions) :
    ((gifReuseStep o s).1).formatOut = s.formatOut := by
  unfold gifReuseStep setBooleanOption
  repeat' split
  all_goals rfl

/-- The gif progressive block never writes the output format. -/
theorem gifProgressiveStep_formatOut (o : GifOpts) (s : SharpOptions) :
    ((gifProgressiveStep o s).1).formatOut = s.formatOut := by
  unfold gifProgressiveStep setBooleanOption
  repeat' split
  all_goals rfl

/-- The gif colour-count block never writes the output format. -/
theorem gifColoursStep_formatOut (o : GifOpts) (s : SharpOptions) :
    ((gifColoursStep o s).1).formatOut = s.formatOut := by
  unfold gifColoursStep
  dsimp only
  repeat' split
  all_goals rfl

/-- The gif effort block never writes the output format. -/
theorem gifEffortStep_formatOut (o : GifOpts) (s : SharpOptions) :
    ((gifEffortStep o s).1).formatOut = s.formatOut := by
  unfold gifEffortStep
  repeat' split
  all_goals rfl

/-- The gif dither block never writes the output format. -/
theorem gifDitherStep_formatOut (o : GifOpts) (s : SharpOptions) :
    ((gifDitherStep o s).1).formatOut = s.formatOut := by
  unfold gifDitherStep
  repeat' split
  all_goals rfl

/-- The gif inter-frame block never writes the output format. -/
theorem gifInterFrameStep_formatOut (o : GifOpts) (s : SharpOptions) :
    ((gifInterFrameStep o s).1).formatOut = s.formatOut := by
  unfold gifInterFrameStep
  repeat' split
  all_goals rfl

/-- The gif inter-palette block never writes the output format. -/
theorem gifInterPaletteStep_formatOut (o : GifOpts) (s : SharpOptions) :
    ((gifInterPaletteStep o s).1).formatOut = s.formatOut := by
  unfold gifInterPaletteStep
  repeat' split
  all_goals rfl

/-- The gif keep-duplicate-frames block never writes the output format. -/
theorem gifKeepDuplicateFramesStep_formatOut (o : GifOpts) (s : SharpOptions) :
    ((gifKeepDuplicateFramesStep o s).1).formatOut = s.formatOut := by
  unfold gifKeepDuplicateFramesStep setBooleanOption
  repeat' split
  all_goals rfl

/-- The gif option-validation body never writes the output format. -/
theorem gifBody_formatOut (o : GifOpts) (s : SharpOptions) :
    ((gifBody o s).1).formatOut = s.formatOut := by
  unfold gifBody
  apply andThen_field SharpOptions.formatOut (gifReuseStep_formatOut o s)
  intro u h
  apply andThen_field SharpOptions.formatOut ((gifProgressiveStep_formatOut o u).trans h)
  intro u h
  apply andThen_field SharpOptions.formatOut ((gifColoursStep_formatOut o u).trans h)
  intro u h
  apply andThen_field SharpOptions.formatOut ((gifEffortStep_formatOut o u).trans h)
  intro u h
  apply andThen_field SharpOptions.formatOut ((gifDitherStep_formatOut o u).trans h)
  intro u h
  apply andThen_field SharpOptions.formatOut ((gifInterFrameStep_formatOut o u).trans h)
  intro u h
  apply andThen_field SharpOptions.formatOut ((gifInterPaletteStep_formatOut o u).trans h)
  intro u h
  exact (gifKeepDuplicateFramesStep_formatOut o u).trans h

/-- The webp quality block never writes the output format. -/
theorem webpQualityStep_formatOut (o : WebpOpts) (s : SharpOptions) :
    ((webpQualityStep o s).1).formatOut = s.formatOut := by
  unfold webpQualityStep
  repeat' split
  all_goals rfl

/-- The webp alpha-quality block never writes the output format. -/
theorem webpAlphaQualityStep_formatOut (o : WebpOpts) (s : SharpOptions) :
    ((webpAlphaQualityStep o s).1).formatOut = s.formatOut := by
  unfold webpAlphaQualityStep
  repeat' split
  all_goals rfl

/-- The webp boolean-flag block never writes the output format. -/
theorem webpFlagsStep_formatOut (o : WebpOpts) (s : SharpOptions) :
    ((webpFlagsStep o s).1).formatOut = s.formatOut := by
  unfold webpFlagsStep
  apply andThen_field SharpOptions.formatOut
  · unfold setBooleanOption
    repeat' split
    all_goals rfl
  · intro u hu
    apply andThen_field SharpOptions.formatOut
    · unfold setBooleanOption
      repeat' split
      all_goals exact hu
    · intro u hv
      apply andThen_field SharpOptions.formatOut
      · unfold setBooleanOption
        repeat' split
        all_goals exact hv
      · intro u hw
        unfold setBooleanOption
        repeat' split
        all_goals exact hw

/-- The webp preset block never writes the output format. -/
theorem webpPresetStep_formatOut (o : WebpOpts) (s : SharpOptions) :
    ((webpPresetStep o s).1).formatOut = s.formatOut := by
  unfold webpPresetStep
  repeat' split
  all_goals rfl

/-- The webp effort block never writes the output format. -/
theorem webpEffortStep_formatOut (o : WebpOpts) (s : SharpOptions) :
    ((webpEffortStep o s).1).formatOut = s.formatOut := by
  unfold webpEffortStep
  repeat' split
  all_goals rfl

/-- The webp minSize and mixed block never writes the output format. -/
theorem webpMinSizeMixedStep_formatOut (o : WebpOpts) (s : SharpOptions) :
    ((webpMinSizeMixedStep o s).1).formatOut = s.formatOut := by
  unfold webpMinSizeMixedStep
  apply andThen_field SharpOptions.formatOut
  · unfold setBooleanOption
    repeat' split
    all_goals rfl
  · intro u hu
    unfold setBooleanOption
    repeat' split
    all_goals exact hu

/-- The webp option-validation body never writes the output format. -/
theorem webpBody_formatOut (o : WebpOpts) (s : SharpOptions) :
    ((webpBody o s).1).formatOut = s.formatOut := by
  unfold webpBody
  apply andThen_field SharpOptions.formatOut (webpQualityStep_formatOut o s)
  intro u h
  apply andThen_field SharpOptions.formatOut ((webpAlphaQualityStep_formatOut o u).trans h)
  intro u h
  apply andThen_field SharpOptions.formatOut ((webpFlagsStep_formatOut o u).trans h)
  intro u h
  apply andThen_field SharpOptions.formatOut ((webpPresetStep_formatOut o u).trans h)
  intro u h
  apply andThen_field SharpOptions.formatOut ((webpEffortStep_formatOut o u).trans h)
  intro u h
  exact (webpMinSizeMixedStep_formatOut o u).trans h

/-- The jxl quality-or-distance block never writes the output format. -/
theorem jxlQualityDistanceStep_formatOut (o : JxlOpts) (s : SharpOptions) :
    ((jxlQualityDistanceStep o s).1).formatOut = s.formatOut := by
  unfold jxlQualityDistanceStep
  repeat' split
  all_goals rfl

/-- The jxl decoding-tier block never writes the output format. -/
theorem jxlDecodingTierStep_formatOut (o : JxlOpts) (s : SharpOptions) :
    ((jxlDecodingTierStep o s).1).formatOut = s.formatOut := by
  unfold jxlDecodingTierStep
  repeat' split
  all_goals rfl

/-- The jxl lossless block never writes the output format. -/
theorem jxlLosslessStep_formatOut (o : JxlOpts) (s : SharpOptions) :
    ((jxlLosslessStep o s).1).formatOut = s.formatOut := by
  unfold jxlLosslessStep
  repeat' split
  all_goals rfl

/-- The jxl effort block never writes the output format. -/
theorem jxlEffortStep_formatOut (o : JxlOpts) (s : SharpOptions) :
    ((jxlEffortStep o s).1).formatOut = s.formatOut := by
  unfold jxlEffortStep
  repeat' split
  all_goals rfl

/-- The jxl option-validation body never writes the output format. -/
theorem jxlBody_formatOut (o : JxlOpts) (s : SharpOptions) :
    ((jxlBody o s).1).formatOut = s.formatOut := by
  unfold jxlBody
  apply andThen_field SharpOptions.formatOut (jxlQualityDistanceStep_formatOut o s)
  intro u h
  apply andThen_field SharpOptions.formatOut ((jxlDecodingTierStep_formatOut o u).trans h)
  intro u h
  apply andThen_field SharpOptions.formatOut ((jxlLosslessStep_formatOut o u).trans h)
  intro u h
  exact (jxlEffortStep_formatOut o u).trans h

/-- The shared animation validator never writes the output format. -/
theorem trySetAnimationOptions_formatOut (l d : Option JSVal) (s : SharpOptions) :
    ((trySetAnimationOptions l d s).1).formatOut = s.formatOut := by
  unfold trySetAnimationOptions
  apply andThen_field SharpOptions.formatOut
  · unfold animationLoopStep
    repeat' split
    all_goals rfl
  · intro u hu
    unfold animationDelayStep
    repeat' split
    all_goals exact hu

/-- Claim C4, counterexample: the raw and tile resolvers pass no options to
`_updateFormatOut`, so they overwrite the output format even when called with
`force: false` — on a fresh record whose format selection is the sentinel
value, both overwrite it. -/
theorem c4_format_force_counterexample :
    initOptions.formatOut = "input" ∧
    ((raw (some { force := some (JSVal.bool false) }) initOptions).1).formatOut = "raw" ∧
    ((tile (some { force := some (JSVal.bool false) }) initOptions).1).formatOut = "dz" := by
  decide

/-- Claim C4, amended: among the embedded codec resolvers, jpeg, png, webp,
gif and jxl conclude, on every call that completes normally, by setting the
output format to their codec name unless the options carry `force: false`, in
which case the previous selection is kept; the raw and tile resolvers call
`_updateFormatOut` without options and always set their format name (raw and
dz) even when `force: false` is supplied; calling without options always sets
the codec name; and calling the jpeg resolver twice with two valid quality
values leaves jpegQuality at the second value with formatOut equal to jpeg,
exactly as after the first call. -/
theorem c4_format_force_amended :
    (∀ (o : JpegOpts) (s : SharpOptions), (jpeg (some o) s).2 = none →
      ((jpeg (some o) s).1).formatOut =
        if o.force == some (JSVal.bool false) then s.formatOut else "jpeg") ∧
    (∀ (o : PngOpts) (s : SharpOptions), (png (some o) s).2 = none →
      ((png (some o) s).1).formatOut =
        if o.force == some (JSVal.bool false) then s.formatOut else "png") ∧
    (∀ (o : WebpOpts) (s : SharpOptions), (webp (some o) s).2 = none →
      ((webp (some o) s).1).formatOut =
        if o.force == some (JSVal.bool false) then s.formatOut else "webp") ∧
    (∀ (o : GifOpts) (s : SharpOptions), (gif (some o) s).2 = none →
      ((gif (some o) s).1).formatOut =
        if o.force == some (JSVal.bool false) then s.formatOut else "gif") ∧
    (∀ (o : JxlOpts) (s : SharpOptions), (jxl (some o) s).2 = none →
      ((jxl (some o) s).1).formatOut =
        if o.force == some (JSVal.bool false) then s.formatOut else "jxl") ∧
    (∀ (o : RawOpts) (s : SharpOptions), (raw (some o) s).2 = none →
      ((raw (some o) s).1).formatOut = "raw") ∧
    (∀ (o : TileOpts) (s : SharpOptions), (tile (some o) s).2 = none →
      ((tile (some o) s).1).formatOut = "dz") ∧
    (∀ s : SharpOptions,
      ((jpeg none s).1).formatOut = "jpeg" ∧ ((png none s).1).formatOut = "png" ∧
      ((webp none s).1).formatOut = "webp" ∧ ((gif none s).1).formatOut = "gif" ∧
      ((jxl none s).1).formatOut = "jxl" ∧ ((raw none s).1).formatOut = "raw") ∧
    (∀ (q1 q2 : ℚ) (s : SharpOptions),
      intInRange (some (JSVal.num q1)) 1 100 = true →
      intInRange (some (JSVal.num q2)) 1 100 = true →
      ((jpeg (some { quality := some (JSVal.num q1) }) s).1).formatOut = "jpeg" ∧
      (jpeg (some { quality := some (JSVal.num q2) })
          ((jpeg (some { quality := some (JSVal.num q1) }) s).1)).1 =
        { s with jpegQuality := q2, formatOut := "jpeg" }) := by
  refine ⟨?_, ?_, ?_, ?_, ?_, ?_, ?_, ?_, ?_⟩
  · intro o s h
    simp only [jpeg, optField] at h ⊢
    rw [andThen_eq_of_none (andThen_none_left h)]
    unfold updateFormatOut
    split
    · rename_i hc
      simp only [Bool.not_eq_true'] at hc
      rw [hc]
      rfl
    · rename_i hc
      simp only [Bool.not_eq_true, Bool.not_eq_false'] at hc
      rw [hc]
      simpa using jpegBody_formatOut o s
  · intro o s h
    simp only [png, optField] at h ⊢
    rw [andThen_eq_of_none (andThen_none_left h)]
    unfold updateFormatOut
    split
    · rename_i hc
      simp only [Bool.not_eq_true'] at hc
      rw [hc]
      rfl
    · rename_i hc
      simp only [Bool.not_eq_true, Bool.not_eq_false'] at hc
      rw [hc]
      simpa using pngBody_formatOut o s
  · intro o s h
    simp only [webp, optField] at h ⊢
    rw [andThen_eq_of_none (andThen_none_left h)]
    unfold updateFormatOut
    split
    · rename_i hc
      simp only [Bool.not_eq_true'] at hc
      rw [hc]
      rfl
    · rename_i hc
      simp only [Bool.not_eq_true, Bool.not_eq_false'] at hc
      rw [hc]
      have hb : (andThen (webpBody o s) fun t => trySetAnimationOptions o.loop o.delay t).1.formatOut = s.formatOut := by
        apply andThen_field SharpOptions.formatOut (webpBody_formatOut o s)
        intro u hu
        exact (trySetAnimationOptions_formatOut _ _ u).trans hu
      simpa using hb
  · intro o s h
    simp only [gif, optField] at h ⊢
    rw [andThen_eq_of_none (andThen_none_left h)]
    unfold updateFormatOut
    split
    · rename_i hc
      simp only [Bool.not_eq_true'] at hc
      rw [hc]
      rfl
    · rename_i hc
      simp only [Bool.not_eq_true, Bool.not_eq_false'] at hc
      rw [hc]
      have hb : (andThen (gifBody o s) fun t => trySetAnimationOptions o.loop o.delay t).1.formatOut = s.formatOut := by
        apply andThen_field SharpOptions.formatOut (gifBody_formatOut o s)
        intro u hu
        exact (trySetAnimationOptions_formatOut _ _ u).trans hu
      simpa using hb
  · intro o s h
    simp only [jxl, optField] at h ⊢
    rw [andThen_eq_of_none (andThen_none_left h)]
    unfold updateFormatOut
    split
    · rename_i hc
      simp only [Bool.not_eq_true'] at hc
      rw [hc]
      rfl
    · rename_i hc
      simp only [Bool.not_eq_true, Bool.not_eq_false'] at hc
      rw [hc]
      have hb : (andThen (jxlBody o s) fun t => trySetAnimationOptions o.loop o.delay t).1.formatOut = s.formatOut := by
        apply andThen_field SharpOptions.formatOut (jxlBody_formatOut o s)
        intro u hu
        exact (trySetAnimationOptions_formatOut _ _ u).trans hu
      simpa using hb
  · intro o s h
    simp only [raw] at h ⊢
    rw [andThen_eq_of_none (andThen_none_left h)]
    rfl
  · intro o s h
    simp only [tile] at h ⊢
    rw [andThen_eq_of_none (andThen_none_left h)]
    rfl
  · intro s
    exact ⟨rfl, rfl, rfl, rfl, rfl, rfl⟩
  · intro q1 q2 s h1 h2
    constructor
    · simp [jpeg, jpegBody, jpegQualityStep, jpegProgressiveStep, jpegChromaStep,
        jpegOptimiseCodingStep, jpegMozjpegStep, jpegTrellisStep, jpegOvershootStep,
        jpegOptimiseScansStep, jpegQuantisationStep, optField, updateFormatOut,
        isDefined, isBool, isNumber, h1, getNum]
    · simp [jpeg, jpegBody, jpegQualityStep, jpegProgressiveStep, jpegChromaStep,
        jpegOptimiseCodingStep, jpegMozjpegStep, jpegTrellisStep, jpegOvershootStep,
        jpegOptimiseScansStep, jpegQuantisationStep, optField, updateFormatOut,
        isDefined, isBool, isNumber, h1, h2, getNum]

/-- Claim C4, witness: the amended format-selection law at concrete calls —
jpeg honours force false on a fresh record, raw ignores it, and two jpeg
calls with qualities 80 then 50 leave quality 50 with format jpeg. -/
theorem c4_format_force_amended_witness :
    ((jpeg (some { force := some (JSVal.bool false) }) initOptions).1).formatOut = "input" ∧
    ((raw (some { force := some (JSVal.bool false) }) initOptions).1).formatOut = "raw" ∧
    (jpeg (some { quality := some (JSVal.num 50) })
        ((jpeg (some { quality := some (JSVal.num 80) }) initOptions).1)).1 =
      { initOptions with jpegQuality := 50, formatOut := "jpeg" } := by
  refine ⟨?_, ?_, ?_⟩
  · have h := c4_format_force_amended.1 { force := some (JSVal.bool false) } initOptions (by decide)
    simpa using h
  · exact c4_format_force_amended.2.2.2.2.2.1 { force := some (JSVal.bool false) } initOptions (by decide)
  · exact (c4_format_force_amended.2.2.2.2.2.2.2.2 80 50 initOptions (by decide) (by decide)).2

/-- The jxl decoding-tier block never writes the stored distance. -/
theorem jxlDecodingTierStep_distance (o : JxlOpts) (s : SharpOptions) :
    ((jxlDecodingTierStep o s).1).jxlDistance = s.jxlDistance := by
  unfold jxlDecodingTierStep
  repeat' split
  all_goals rfl

/-- The jxl lossless block never writes the stored distance. -/
theorem jxlLosslessStep_distance (o : JxlOpts) (s : SharpOptions) :
    ((jxlLosslessStep o s).1).jxlDistance = s.jxlDistance := by
  unfold jxlLosslessStep
  repeat' split
  all_goals rfl

/-- The jxl effort block never writes the stored distance. -/
theorem jxlEffortStep_distance (o : JxlOpts) (s : SharpOptions) :
    ((jxlEffortStep o s).1).jxlDistance = s.jxlDistance := by
  unfold jxlEffortStep
  repeat' split
  all_goals rfl

/-- The shared animation validator never writes the stored distance. -/
theorem trySetAnimationOptions_distance (l d : Option JSVal) (s : SharpOptions) :
    ((trySetAnimationOptions l d s).1).jxlDistance = s.jxlDistance := by
  unfold trySetAnimationOptions
  apply andThen_field SharpOptions.jxlDistance
  · unfold animationLoopStep
    repeat' split
    all_goals rfl
  · intro u hu
    unfold animationDelayStep
    repeat' split
    all_goals exact hu

/-- The format-selection epilogue never writes the stored distance. -/
theorem updateFormatOut_distance (n : String) (f : Option JSVal) (t : SharpOptions) :
    ((updateFormatOut n f t).1).jxlDistance = t.jxlDistance := by
  unfold updateFormatOut
  split <;> rfl

/-- The jxl decoding-tier block never writes the stored decoding tier when it
completes without storing, and the other blocks never write it at all. -/
theorem jxlLosslessStep_tier (o : JxlOpts) (s : SharpOptions) :
    ((jxlLosslessStep o s).1).jxlDecodingTier = s.jxlDecodingTier := by
  unfold jxlLosslessStep
  repeat' split
  all_goals rfl

/-- The jxl effort block never writes the stored decoding tier. -/
theorem jxlEffortStep_tier (o : JxlOpts) (s : SharpOptions) :
    ((jxlEffortStep o s).1).jxlDecodingTier = s.jxlDecodingTier := by
  unfold jxlEffortStep
  repeat' split
  all_goals rfl

/-- The shared animation validator never writes the stored decoding tier. -/
theorem trySetAnimationOptions_tier (l d : Option JSVal) (s : SharpOptions) :
    ((trySetAnimationOptions l d s).1).jxlDecodingTier = s.jxlDecodingTier := by
  unfold trySetAnimationOptions
  apply andThen_field SharpOptions.jxlDecodingTier
  · unfold animationLoopStep
    repeat' split
    all_goals rfl
  · intro u hu
    unfold animationDelayStep
    repeat' split
    all_goals exact hu

/-- The format-selection epilogue never writes the stored decoding tier. -/
theorem updateFormatOut_tier (n : String) (f : Option JSVal) (t : SharpOptions) :
    ((updateFormatOut n f t).1).jxlDecodingTier = t.jxlDecodingTier := by
  unfold updateFormatOut
  split <;> rfl

/-- With a defined valid integer quality, the quality-or-distance block stores
the derived distance. -/
theorem jxlQualityDistanceStep_quality {o : JxlOpts} {s : SharpOptions} {q : ℚ}
    (hq : o.quality = some (JSVal.num q)) (hden : q.den = 1)
    (h1 : 1 ≤ q) (h100 : q ≤ 100) :
    jxlQualityDistanceStep o s = ok { s with jxlDistance := jxlQualityToDistance q } := by
  unfold jxlQualityDistanceStep
  rw [hq]
  simp [isDefined, intInRange, getNum, hden, h1, h100]

/-- With quality absent and a valid distance, the quality-or-distance block
stores the distance directly. -/
theorem jxlQualityDistanceStep_distanceStore {o : JxlOpts} {s : SharpOptions} {d : ℚ}
    (hq : o.quality = none) (hd : o.distance = some (JSVal.num d))
    (h0 : 0 ≤ d) (h15 : d ≤ 15) :
    jxlQualityDistanceStep o s = ok { s with jxlDistance := d } := by
  unfold jxlQualityDistanceStep
  rw [hq, hd]
  simp [isDefined, numInRange, getNum, h0, h15]

/-- When the quality-or-distance validity predicate holds, the block completes
normally and leaves the stored decoding tier unchanged. -/
theorem jxlQualityDistanceStep_ok {o : JxlOpts} {s : SharpOptions}
    (h : jxlQualityDistanceOk o = true) :
    ∃ t, jxlQualityDistanceStep o s = ok t ∧ t.jxlDecodingTier = s.jxlDecodingTier := by
  unfold jxlQualityDistanceOk at h
  unfold jxlQualityDistanceStep
  split at h
  · rename_i hdef
    rw [if_pos hdef, if_pos h]
    exact ⟨_, rfl, rfl⟩
  · rename_i hdef
    simp only [Bool.or_eq_true, Bool.not_eq_true'] at h
    rw [if_neg (by simp [hdef])]
    rcases h with h | h
    · rw [if_neg (by simp [h])]
      exact ⟨s, rfl, rfl⟩
    · have hd : isDefined o.distance = true := by
        cases hv : o.distance with
        | none => simp [hv, numInRange] at h
        | some v => rfl
      rw [if_pos hd, if_pos h]
      exact ⟨_, rfl, rfl⟩

/-- Claim C7: the jxl resolver derives jxlDistance from a valid integer
quality via `jxlQualityToDistance` (linear at or above 30, quadratic below),
ignoring any supplied distance; with quality absent a defined distance must be
a number in [0,15] and is stored directly (invalid distances raise the named
invalid-parameter error); and a defined decodingTier must be an integer in
[0,4] (stored when valid, the named error otherwise), once the
quality-or-distance block has passed. -/
theorem c7_jxl_quality_distance :
    (∀ (o : JxlOpts) (s : SharpOptions) (q : ℚ), o.quality = some (JSVal.num q) →
      q.den = 1 → 1 ≤ q → q ≤ 100 →
      ((jxl (some o) s).1).jxlDistance = jxlQualityToDistance q) ∧
    (∀ q : ℚ, jxlQualityToDistance q =
      if 30 ≤ q then 0.1 + (100 - q) * 0.09 else 53 / 3000 * q * q - 23 / 20 * q + 25) ∧
    (∀ (o : JxlOpts) (s : SharpOptions), isDefined o.quality = true →
      jxl (some o) s = jxl (some { o with distance := none }) s) ∧
    (∀ (o : JxlOpts) (s : SharpOptions) (d : ℚ), o.quality = none →
      o.distance = some (JSVal.num d) → 0 ≤ d → d ≤ 15 →
      ((jxl (some o) s).1).jxlDistance = d) ∧
    (∀ (o : JxlOpts) (s : SharpOptions), o.quality = none → isDefined o.distance = true →
      numInRange o.distance 0 15 = false →
      (jxl (some o) s).2 =
        some (SharpError.invalidParameter "distance" "number between 0.0 and 15.0" o.distance)) ∧
    (∀ (o : JxlOpts) (s : SharpOptions) (t : ℚ), jxlQualityDistanceOk o = true →
      o.decodingTier = some (JSVal.num t) → t.den = 1 → 0 ≤ t → t ≤ 4 →
      ((jxl (some o) s).1).jxlDecodingTier = t) ∧
    (∀ (o : JxlOpts) (s : SharpOptions), jxlQualityDistanceOk o = true →
      isDefined o.decodingTier = true → intInRange o.decodingTier 0 4 = false →
      (jxl (some o) s).2 =
        some (SharpError.invalidParameter "decodingTier" "integer between 0 and 4" o.decodingTier)) := by
  have hdistance :
      ∀ (o : JxlOpts) (s t : SharpOptions),
        jxlQualityDistanceStep o s = ok t →
        ((jxl (some o) s).1).jxlDistance = t.jxlDistance := by
    intro o s t hstep
    simp only [jxl, jxlBody, optField]
    apply andThen_field SharpOptions.jxlDistance
    · apply andThen_field SharpOptions.jxlDistance
      · rw [hstep, andThen_ok]
        apply andThen_field SharpOptions.jxlDistance (jxlDecodingTierStep_distance o t)
        intro u h
        apply andThen_field SharpOptions.jxlDistance ((jxlLosslessStep_distance o u).trans h)
        intro u h
        exact (jxlEffortStep_distance o u).trans h
      · intro u h
        exact (trySetAnimationOptions_distance _ _ u).trans h
    · intro u h
      exact (updateFormatOut_distance _ _ u).trans h
  refine ⟨?_, fun q => rfl, ?_, ?_, ?_, ?_, ?_⟩
  · intro o s q hq hden h1 h100
    exact hdistance o s _ (jxlQualityDistanceStep_quality hq hden h1 h100)
  · intro o s hq
    simp only [jxl, jxlBody, jxlQualityDistanceStep, jxlDecodingTierStep, jxlLosslessStep,
      jxlEffortStep, optField]
    simp [hq]
  · intro o s d hq hd h0 h15
    exact hdistance o s _ (jxlQualityDistanceStep_distanceStore hq hd h0 h15)
  · intro o s hq hd hbad
    have hstep : jxlQualityDistanceStep o s =
        raise s (SharpError.invalidParameter "distance" "number between 0.0 and 15.0" o.distance) := by
      cases hv : o.distance with
      | none => rw [hv] at hd; simp [isDefined] at hd
      | some v =>
        unfold jxlQualityDistanceStep
        rw [hq, hv]
        rw [hv] at hbad
        simp [isDefined, hbad]
    simp only [jxl, jxlBody, optField]
    rw [hstep]
    rfl
  · intro o s t hok htier hden h0 h4
    obtain ⟨u, hu, hpres⟩ := jxlQualityDistanceStep_ok (s := s) hok
    have hstep2 : jxlDecodingTierStep o u = ok { u with jxlDecodingTier := t } := by
      unfold jxlDecodingTierStep
      rw [htier]
      simp [isDefined, intInRange, getNum, hden, h0, h4]
    simp only [jxl, jxlBody, optField]
    apply andThen_field SharpOptions.jxlDecodingTier
    · apply andThen_field SharpOptions.jxlDecodingTier
      · rw [hu, andThen_ok, hstep2, andThen_ok]
        apply andThen_field SharpOptions.jxlDecodingTier (jxlLosslessStep_tier o _)
        intro w h
        exact (jxlEffortStep_tier o w).trans h
      · intro w h
        exact (trySetAnimationOptions_tier _ _ w).trans h
    · intro w h
      exact (updateFormatOut_tier _ _ w).trans h
  · intro o s hok hdef hbad
    obtain ⟨u, hu, _⟩ := jxlQualityDistanceStep_ok (s := s) hok
    have hstep2 : jxlDecodingTierStep o u =
        raise u (SharpError.invalidParameter "decodingTier" "integer between 0 and 4" o.decodingTier) := by
      unfold jxlDecodingTierStep
      rw [if_pos hdef, if_neg (by simp [hbad])]
    simp only [jxl, jxlBody, optField]
    rw [hu, andThen_ok, hstep2]
    rfl

/-- Claim C7, witness: the derived-distance law at quality 50 (distance 4.6)
and quality 10 (quadratic branch), a directly stored distance of 3.5, and a
stored decoding tier of 2. -/
theorem c7_jxl_quality_distance_witness :
    ((jxl (some { quality := some (JSVal.num 50) }) initOptions).1).jxlDistance =
      jxlQualityToDistance 50 ∧
    jxlQualityToDistance 50 = 23 / 5 ∧
    ((jxl (some { quality := some (JSVal.num 10) }) initOptions).1).jxlDistance =
      jxlQualityToDistance 10 ∧
    jxlQualityToDistance 10 = 229 / 15 ∧
    ((jxl (some { distance := some (JSVal.num (7/2)) }) initOptions).1).jxlDistance = 7 / 2 ∧
    ((jxl (some { decodingTier := some (JSVal.num 2) }) initOptions).1).jxlDecodingTier = 2 := by
  refine ⟨?_, by norm_num [jxlQualityToDistance], ?_, by norm_num [jxlQualityToDistance], ?_, ?_⟩
  · exact c7_jxl_quality_distance.1 { quality := some (JSVal.num 50) } initOptions 50
      rfl (by decide) (by norm_num) (by norm_num)
  · exact c7_jxl_quality_distance.1 { quality := some (JSVal.num 10) } initOptions 10
      rfl (by decide) (by norm_num) (by norm_num)
  · exact c7_jxl_quality_distance.2.2.2.1 { distance := some (JSVal.num (7/2)) } initOptions (7/2)
      rfl rfl (by norm_num) (by norm_num)
  · exact c7_jxl_quality_distance.2.2.2.2.2.1 { decodingTier := some (JSVal.num 2) } initOptions 2
      (by decide) rfl (by decide) (by norm_num) (by norm_num)

/-- Claim C10: validation failure inside a codec resolver is not atomic over
the shared Job Options record — jpeg with a valid quality of 50 and an
invalid chroma subsampling throws the invalid-parameter error for
chromaSubsampling after jpegQuality has already been overwritten (the fresh
default is 80, the error state carries 50). -/
theorem c10_partial_mutation_on_error :
    (jpeg (some { quality := some (JSVal.num 50), chromaSubsampling := some (JSVal.str "bad") })
        initOptions).2 =
      some (SharpError.invalidParameter "chromaSubsampling" "one of: 4:2:0, 4:4:4"
        (some (JSVal.str "bad"))) ∧
    ((jpeg (some { quality := some (JSVal.num 50), chromaSubsampling := some (JSVal.str "bad") })
        initOptions).1).jpegQuality = 50 ∧
    initOptions.jpegQuality = 80 ∧
    (jpeg (some { quality := some (JSVal.num 50), chromaSubsampling := some (JSVal.str "bad") })
        initOptions).1 ≠ initOptions := by
  decide

/-- Claim C6: on every successful call, withExif sets retention bit 0 and
withXmp sets retention bit 1; withIccProfile records the profile reference
and sets retention bit 3, except that `attach: false` leaves the bit cleared
while the profile reference is still recorded. -/
theorem c6_metadata_retention_bits :
    (∀ (e : ExifArg) (s : SharpOptions), (withExif e s).2 = none →
      ((withExif e s).1).keepMetadata.testBit 0 = true) ∧
    (∀ (x : Option JSVal) (s : SharpOptions), (withXmp x s).2 = none →
      ((withXmp x s).1).keepMetadata.testBit 1 = true) ∧
    (∀ (o : Option IccOpts) (s : SharpOptions) (p : String),
      (withIccProfile (some (JSVal.str p)) o s).2 = none →
      ((withIccProfile (some (JSVal.str p)) o s).1).withIccProfile = p ∧
      ((withIccProfile (some (JSVal.str p)) o s).1).keepMetadata.testBit 3 =
        !(optField IccOpts.attach o == some (JSVal.bool false))) := by
  refine ⟨?_, ?_, ?_⟩
  · intro e s h
    cases e with
    | nonObj v => simp [withExif, raise] at h
    | obj ifds =>
      simp only [withExif] at h ⊢
      rw [andThen_eq_of_none (andThen_none_left h)]
      simp [keepExif, Nat.testBit_or]
  · intro x s h
    unfold withXmp at h ⊢
    split at h
    · split
      · simp [Nat.testBit_or]
        exact Or.inr (by decide)
      · simp_all
    · simp [raise] at h
  · intro o s p h
    cases o with
    | none =>
      refine ⟨rfl, ?_⟩
      simp [withIccProfile, keepIccProfile, optField, isString, getStr, Nat.testBit_or]
      exact Or.inr (by decide)
    | some oo =>
      cases hv : oo.attach with
      | none =>
        constructor
        · simp [withIccProfile, keepIccProfile, optField, isString, getStr, isDefined, hv]
        · simp [withIccProfile, keepIccProfile, optField, isString, getStr, isDefined, hv,
            Nat.testBit_or]
          exact Or.inr (by decide)
      | some v =>
        cases v with
        | bool b =>
          cases b with
          | false =>
            constructor
            · simp [withIccProfile, keepIccProfile, optField, isString, getStr, isDefined, isBool, hv]
            · simp [withIccProfile, keepIccProfile, optField, isString, getStr, isDefined, isBool, hv,
                Nat.testBit_and, Nat.testBit_or]
              exact fun _ => by decide
          | true =>
            constructor
            · simp [withIccProfile, keepIccProfile, optField, isString, getStr, isDefined, isBool, hv]
            · simp [withIccProfile, keepIccProfile, optField, isString, getStr, isDefined, isBool, hv,
                Nat.testBit_or]
              simp only [show Nat.testBit 8 3 = true from by decide, Bool.or_true]
              decide
        | num q =>
          rw [show withIccProfile (some (JSVal.str p)) (some oo) s =
            raise { s with withIccProfile := p, keepMetadata := s.keepMetadata ||| 8 }
              (SharpError.invalidParameter "attach" "boolean" oo.attach) from by
              simp [withIccProfile, keepIccProfile, optField, isString, getStr, isDefined, isBool, hv]] at h
          simp [raise] at h
        | str t =>
          rw [show withIccProfile (some (JSVal.str p)) (some oo) s =
            raise { s with withIccProfile := p, keepMetadata := s.keepMetadata ||| 8 }
              (SharpError.invalidParameter "attach" "boolean" oo.attach) from by
              simp [withIccProfile, keepIccProfile, optField, isString, getStr, isDefined, isBool, hv]] at h
          simp [raise] at h
        | numArr l =>
          rw [show withIccProfile (some (JSVal.str p)) (some oo) s =
            raise { s with withIccProfile := p, keepMetadata := s.keepMetadata ||| 8 }
              (SharpError.invalidParameter "attach" "boolean" oo.attach) from by
              simp [withIccProfile, keepIccProfile, optField, isString, getStr, isDefined, isBool, hv]] at h
          simp [raise] at h

/-- Claim C6, witness: concrete metadata calls — an EXIF override, an XMP
payload, the p3 profile attached, and the srgb profile with attach false. -/
theorem c6_metadata_retention_bits_witness :
    ((withExif (ExifArg.obj [("IFD0", ExifIfdVal.obj [("Copyright", ExifVal.str "x")])])
        initOptions).1).keepMetadata.testBit 0 = true ∧
    ((withXmp (some (JSVal.str "payload")) initOptions).1).keepMetadata.testBit 1 = true ∧
    ((withIccProfile (some (JSVal.str "p3")) none initOptions).1).keepMetadata.testBit 3 = true ∧
    ((withIccProfile (some (JSVal.str "srgb"))
        (some { attach := some (JSVal.bool false) }) initOptions).1).keepMetadata.testBit 3 = false ∧
    ((withIccProfile (some (JSVal.str "srgb"))
        (some { attach := some (JSVal.bool false) }) initOptions).1).withIccProfile = "srgb" := by
  refine ⟨?_, ?_, ?_, ?_, ?_⟩
  · exact c6_metadata_retention_bits.1
      (ExifArg.obj [("IFD0", ExifIfdVal.obj [("Copyright", ExifVal.str "x")])]) initOptions (by decide)
  · exact c6_metadata_retention_bits.2.1 (some (JSVal.str "payload")) initOptions (by decide)
  · have h := (c6_metadata_retention_bits.2.2 none initOptions "p3" (by decide)).2
    simpa using h
  · have h := (c6_metadata_retention_bits.2.2 (some { attach := some (JSVal.bool false) })
      initOptions "srgb" (by decide)).2
    simpa using h
  · exact (c6_metadata_retention_bits.2.2 (some { attach := some (JSVal.bool false) })
      initOptions "srgb" (by decide)).1

/-- Claim C9: toFile never invokes the engine when a guard fails, delivering
the descriptive error through the callback when one was supplied and as a
rejected promise otherwise — for a missing or non-string output path, for an
output path resolving to the same absolute path as a file-based input, and
for a JPEG2000 extension when the engine build lacks JP2 file output. -/
theorem c9_tofile_guards :
    (∀ (jp2k : Bool) (resolve : String → String) (inF : Option String)
        (s : SharpOptions) (fo : Option JSVal) (cb : Bool),
      isString fo = false →
      toFile jp2k resolve inF s fo cb =
        if cb then ToFileResult.callbackError (SharpError.message "Missing output file path")
        else ToFileResult.rejectedPromise (SharpError.message "Missing output file path")) ∧
    (∀ (jp2k : Bool) (resolve : String → String) (f out : String)
        (s : SharpOptions) (cb : Bool),
      resolve f = resolve out →
      toFile jp2k resolve (some f) s (some (JSVal.str out)) cb =
        if cb then ToFileResult.callbackError (SharpError.message "Cannot use same file for input and output")
        else ToFileResult.rejectedPromise (SharpError.message "Cannot use same file for input and output")) ∧
    (∀ (resolve : String → String) (inF : Option String) (out : String)
        (s : SharpOptions) (cb : Bool),
      (match inF with
       | some f => resolve f == resolve out
       | none => false) = false →
      jp2RegexTest (extname out) = true →
      toFile false resolve inF s (some (JSVal.str out)) cb =
        if cb then ToFileResult.callbackError (SharpError.message "JP2 output requires libvips with support for OpenJPEG")
        else ToFileResult.rejectedPromise (SharpError.message "JP2 output requires libvips with support for OpenJPEG")) := by
  refine ⟨?_, ?_, ?_⟩
  · intro jp2k resolve inF s fo cb h
    simp [toFile, h]
  · intro jp2k resolve f out s cb h
    simp [toFile, isString, getStr, h]
  · intro resolve inF out s cb h1 h2
    simp [toFile, isString, getStr, h1, h2]

/-- Claim C9, witness: the three guards at concrete inputs — no path given
(rejected promise), input and output resolving to the same path (callback),
and a jp2 extension without engine support (rejected promise). -/
theorem c9_tofile_guards_witness :
    toFile true (fun x => x) none initOptions none false =
      ToFileResult.rejectedPromise (SharpError.message "Missing output file path") ∧
    toFile true (fun x => x) (some "a.png") initOptions (some (JSVal.str "a.png")) true =
      ToFileResult.callbackError (SharpError.message "Cannot use same file for input and output") ∧
    toFile false (fun x => x) none initOptions (some (JSVal.str "x.jp2")) false =
      ToFileResult.rejectedPromise (SharpError.message "JP2 output requires libvips with support for OpenJPEG") := by
  refine ⟨?_, ?_, ?_⟩
  · exact c9_tofile_guards.1 true (fun x => x) none initOptions none false rfl
  · exact c9_tofile_guards.2.1 true (fun x => x) "a.png" "a.png" initOptions true rfl
  · exact c9_tofile_guards.2.2 (fun x => x) none "x.jp2" initOptions false rfl (by decide)

/-- Every element-wise build over path strings succeeds, leaves the instance
untouched, and yields one file descriptor per element. -/
theorem createInputDescriptorList_strings (paths : List String) (inst : InstanceOptions) :
    createInputDescriptorList inst (paths.map SInput.str) =
      (inst, (paths.map (fun p => ({ file := some p } : InputDescriptor)), none)) := by
  induction paths generalizing inst with
  | nil => rfl
  | cons p ps ih =>
    simp only [List.map_cons, createInputDescriptorList]
    rw [show createInputDescriptor inst (SInput.str p) none false =
      (inst, ok ({ file := some p } : InputDescriptor)) from rfl]
    simp only [ok]
    rw [ih]

/-- Claim C5: an array input of length one fails with the at-least-two
message whatever the instance state; an array of two or more valid inputs on
an instance without join state succeeds, sets the joining flag and records
exactly one nested descriptor per element; and an array of two or more
inputs on an instance that already has join state fails with the
recursive-join message. -/
theorem c5_join_arity :
    (∀ (inst : InstanceOptions) (i : SInput) (io : Option InputOptions) (a : Bool),
      createInputDescriptor inst (SInput.arr [i]) io a =
        (inst, raise {} (SharpError.message "Expected at least two images to join"))) ∧
    (∀ (paths : List String) (inst : InstanceOptions),
      inst.joining = false → 2 ≤ paths.length →
      createInputDescriptor inst (SInput.arr (paths.map SInput.str)) none false =
        ({ joining := true, join := some (paths.map fun p => { file := some p }) },
          ok ({} : InputDescriptor)) ∧
      (paths.map fun p => ({ file := some p } : InputDescriptor)).length = paths.length) ∧
    (∀ (inst : InstanceOptions) (elems : List SInput) (io : Option InputOptions) (a : Bool),
      inst.joining = true → 2 ≤ elems.length →
      createInputDescriptor inst (SInput.arr elems) io a =
        (inst, raise {} (SharpError.message "Recursive join is unsupported"))) := by
  refine ⟨?_, ?_, ?_⟩
  · intro inst i io a
    rfl
  · intro paths inst hjoin hlen
    refine ⟨?_, by simp⟩
    simp only [createInputDescriptor]
    rw [if_pos (by simpa using Nat.lt_of_lt_of_le Nat.one_lt_two hlen)]
    rw [hjoin]
    simp only [Bool.not_false, if_true]
    rw [createInputDescriptorList_strings]
    rfl
  · intro inst elems io a hjoin hlen
    simp only [createInputDescriptor]
    rw [if_pos (Nat.lt_of_lt_of_le Nat.one_lt_two hlen)]
    rw [hjoin]
    rfl

/-- Claim C5, witness: the join arity rules at concrete inputs — a singleton
array fails, a two-path array joins with two nested descriptors, and a
two-element array on a joined instance fails with the recursive-join
message. -/
theorem c5_join_arity_witness :
    createInputDescriptor {} (SInput.arr [SInput.str "a"]) none false =
      ({}, raise {} (SharpError.message "Expected at least two images to join")) ∧
    createInputDescriptor {} (SInput.arr [SInput.str "a", SInput.str "b"]) none false =
      ({ joining := true, join := some [{ file := some "a" }, { file := some "b" }] },
        ok ({} : InputDescriptor)) ∧
    createInputDescriptor { joining := true } (SInput.arr [SInput.str "a", SInput.str "b"]) none false =
      ({ joining := true }, raise {} (SharpError.message "Recursive join is unsupported")) := by
  refine ⟨?_, ?_, ?_⟩
  · exact c5_join_arity.1 {} (SInput.str "a") none false
  · have h := (c5_join_arity.2.1 ["a", "b"] {} rfl (by decide)).1
    simpa using h
  · exact c5_join_arity.2.2 { joining := true } [SInput.str "a", SInput.str "b"] none false rfl (by decide)

/-- Claim C8: building an Input Descriptor from a Uint16Array of length
w*h*c with raw width w, height h and channels c (w, h positive, c in [1,4])
succeeds with rawDepth ushort and a buffer payload of byte length 2*w*h*c. -/
theorem c8_raw_ushort_roundtrip :
    ∀ (w h c : ℕ) (inst : InstanceOptions), 1 ≤ w → 1 ≤ h → 1 ≤ c → c ≤ 4 →
      ∃ d : InputDescriptor,
        createInputDescriptor inst (SInput.typed TAKind.u16 (w * h * c))
          (some { raw := some { width := some (JSVal.num w), height := some (JSVal.num h),
                                channels := some (JSVal.num c) } }) false =
          (inst, ok d) ∧
        d.rawDepth = some "ushort" ∧
        d.buffer = some (BufferPayload.bytes (2 * (w * h * c))) := by
  intro w h c inst hw hh hc hc4
  have hne : (w * h * c == 0) = false := by
    simp [Nat.mul_eq_zero]
    omega
  have hwq : (0 : ℚ) < (w : ℚ) := by exact_mod_cast hw
  have hhq : (0 : ℚ) < (h : ℚ) := by exact_mod_cast hh
  have hcq1 : (1 : ℚ) ≤ (c : ℚ) := by exact_mod_cast hc
  have hcq4 : (c : ℚ) ≤ 4 := by exact_mod_cast hc4
  refine ⟨{ buffer := some (BufferPayload.bytes (w * h * c * 2)),
            rawWidth := some (w : ℚ), rawHeight := some (h : ℚ), rawChannels := some (c : ℚ),
            rawDepth := some "ushort", rawPremultiplied := some false,
            rawPageHeight := some 0 }, ?_, rfl, by rw [Nat.mul_comm]⟩
  simp only [createInputDescriptor, hne, Bool.false_eq_true, if_false, TAKind.bytes]
  simp [applyInputOptions, inputFailOnErrorStep, inputFailOnStep, inputAutoOrientStep,
    inputDensityStep, inputIgnoreIccStep, inputLimitInputPixelsStep, inputUnlimitedStep,
    inputSequentialReadStep, inputRawStep, inputRawPremultipliedStep, inputRawPageHeightStep,
    inputAnimatedStep, inputPagesStep, inputPageStep, isDefined, isInteger, intInRange,
    getNum, TAKind.rawDepthName, Rat.den_natCast, hwq, hhq, hcq1, hcq4]

/-- Claim C8, witness: a Uint16Array of length 12 declared as 2 by 2 with 3
channels yields rawDepth ushort and a 24-byte buffer payload. -/
theorem c8_raw_ushort_roundtrip_witness :
    ∃ d : InputDescriptor,
      createInputDescriptor {} (SInput.typed TAKind.u16 (2 * 2 * 3))
        (some { raw := some { width := some (JSVal.num 2), height := some (JSVal.num 2),
                              channels := some (JSVal.num 3) } }) false =
        ({}, ok d) ∧
      d.rawDepth = some "ushort" ∧
      d.buffer = some (BufferPayload.bytes 24) := by
  obtain ⟨d, hd, hdepth, hbuf⟩ :=
    c8_raw_ushort_roundtrip 2 2 3 {} (by decide) (by decide) (by decide) (by decide)
  exact ⟨d, by exact_mod_cast hd, hdepth, hbuf⟩

end Sharp
